import Mathlib

/-!
# CEP lookup race (`main.go`)

A shallow embedding of the program: the two provider adapters
(`requestViaCEP`, `requestApiCEP`), the argument checks of `main`, and the race
between the two goroutines and the one-second deadline, as a transition system
whose events are the statements of `main` that touch a channel.

Go strings are modelled by `String`; the only pattern the program searches for
is the one-byte ASCII `-`, which never occurs inside a multi-byte UTF-8
sequence, so searching characters and searching bytes agree.
-/

namespace CepRace

/-! ## The `strings` package functions used by `main` -/

/-- Go `strings.Contains` on character lists: `sub` occurs at some position of the list. -/
def containsChars (sub : List Char) : List Char → Bool
  | [] => sub.isPrefixOf []
  | c :: cs => sub.isPrefixOf (c :: cs) || containsChars sub cs

/-- Go `strings.Contains(s, substr)`. -/
def stringsContains (s substr : String) : Bool :=
  containsChars substr.data s.data

/-- One fewer replacement left; `none` is "no limit". -/
def decLimit : Option Nat → Option Nat
  | none => none
  | some k => some (k - 1)

/-- Go `strings.Replace` with an empty `old`: `new` is inserted at the start and after each
character, at most `limit` times. -/
def replaceEmpty (new : List Char) : Option Nat → List Char → List Char
  | some 0, s => s
  | _, [] => new
  | lim, c :: cs => new ++ c :: replaceEmpty new (decLimit lim) cs

/-- Go `strings.Replace` with a non-empty `old`: scanning from the left, each non-overlapping
occurrence of `old` is replaced by `new`, at most `limit` times; `skip` counts the characters
of the occurrence just replaced that are still to be dropped. -/
def replaceChars (old new : List Char) : Nat → Option Nat → List Char → List Char
  | _, _, [] => []
  | skip + 1, lim, _ :: cs => replaceChars old new skip lim cs
  | 0, some 0, c :: cs => c :: replaceChars old new 0 (some 0) cs
  | 0, lim, c :: cs =>
    if old.isPrefixOf (c :: cs) then
      new ++ replaceChars old new (old.length - 1) (decLimit lim) cs
    else c :: replaceChars old new 0 lim cs

/-- Go `strings.Replace(s, old, new, n)`: the first `n` non-overlapping occurrences of `old`
replaced by `new`; all of them when `n < 0`. -/
def stringsReplace (s old new : String) (n : Int) : String :=
  if old = new ∨ n = 0 then s
  else
    let limit : Option Nat := if n < 0 then none else some n.toNat
    if old.data = [] then ⟨replaceEmpty new.data limit s.data⟩
    else ⟨replaceChars old.data new.data 0 limit s.data⟩

/-! ## Payloads and errors -/

/-- The `ViaCep` struct. -/
structure ViaCep where
  Cep : String
  Logradouro : String
  Complemento : String
  Bairro : String
  Localidade : String
  Uf : String
  Ibge : String
  Gia : String
  Ddd : String
  Siafi : String
  Error : String
  deriving DecidableEq, Repr

/-- The `ApiCep` struct. -/
structure ApiCep where
  Code : String
  State : String
  City : String
  District : String
  Address : String
  Status : Int
  Ok : Bool
  StatusText : String
  deriving DecidableEq, Repr

/-- The zero value `ViaCep{}`. -/
def ViaCep.zero : ViaCep :=
  { Cep := "", Logradouro := "", Complemento := "", Bairro := "", Localidade := "", Uf := "",
    Ibge := "", Gia := "", Ddd := "", Siafi := "", Error := "" }

/-- The zero value `ApiCep{}`. -/
def ApiCep.zero : ApiCep :=
  { Code := "", State := "", City := "", District := "", Address := "", Status := 0,
    Ok := false, StatusText := "" }

/-- A non-nil Go `error` value; a Go `error` is an `Option GoError`, `none` being `nil`. -/
structure GoError where
  msg : String
  deriving DecidableEq, Repr

/-- Go `errors.New`. -/
def errorsNew (text : String) : GoError := ⟨text⟩

/-! ## The HTTP and JSON libraries, as the environment of an adapter -/

/-- A request value built by `http.NewRequest`. -/
structure Request where
  Method : String
  URL : String
  deriving DecidableEq, Repr

/-- The part of an `*http.Response` the adapters look at: the status code and what
`io.ReadAll` on the body gives. -/
structure Response where
  StatusCode : Int
  Body : Except GoError (List Nat)

/-- The constant `http.StatusOK`. -/
def StatusOK : Int := 200

/-- The constant `http.StatusBadRequest`. -/
def StatusBadRequest : Int := 400

/-- What the libraries answer: the outcome of each HTTP call and of each JSON decoding. -/
structure Env where
  /-- the result of `http.Get(url)` -/
  httpGet : String → Except GoError Response
  /-- the error of `http.NewRequest(method, url, nil)`, `none` when the request is built -/
  newRequestErr : String → String → Option GoError
  /-- the result of `client.Do(req)` -/
  clientDo : Request → Except GoError Response
  /-- the result of `json.Unmarshal` into a `ViaCep` -/
  unmarshalViaCep : List Nat → Except GoError ViaCep
  /-- the result of `json.Unmarshal` into an `ApiCep` -/
  unmarshalApiCep : List Nat → Except GoError ApiCep

/-- Go `http.NewRequest(method, url, nil)`. -/
def newRequest (env : Env) (method url : String) : Except GoError Request :=
  match env.newRequestErr method url with
  | some err => .error err
  | none => .ok { Method := method, URL := url }

/-- A call into the `net/http` package. -/
inductive HttpCall where
  | get (url : String)
  | newRequest (method url : String)
  | clientDo (req : Request)
  deriving DecidableEq, Repr

/-- What one adapter invocation does: the library calls it made, in order, and the pair
`(data, err)` it returns. -/
structure AdapterRun (α : Type) where
  calls : List HttpCall
  data : α
  err : Option GoError

/-! ## The adapters -/

/-- The function `requestViaCEP`. -/
def requestViaCEP (env : Env) (cep : String) : AdapterRun ViaCep :=
  let url := "https://viacep.com.br/ws/" ++ cep ++ "/json"
  match env.httpGet url with
  | .error err => ⟨[.get url], ViaCep.zero, some err⟩
  | .ok req =>
    if req.StatusCode = StatusBadRequest then
      ⟨[.get url], ViaCep.zero, some (errorsNew "CEP Invalido")⟩
    else
      match req.Body with
      | .error err => ⟨[.get url], ViaCep.zero, some err⟩
      | .ok res =>
        if req.StatusCode = StatusOK then
          match env.unmarshalViaCep res with
          | .error err => ⟨[.get url], ViaCep.zero, some err⟩
          | .ok cepData => ⟨[.get url], cepData, none⟩
        else
          ⟨[.get url], ViaCep.zero, some (errorsNew "Erro ao fazer a request na API ViaCEP")⟩

/-- The function `requestApiCEP`. -/
def requestApiCEP (env : Env) (cep : String) : AdapterRun ApiCep :=
  let url := "https://cdn.apicep.com/file/apicep/" ++ cep ++ ".json"
  match newRequest env "GET" url with
  | .error err => ⟨[.newRequest "GET" url], ApiCep.zero, some err⟩
  | .ok req =>
    match env.clientDo req with
    | .error err => ⟨[.newRequest "GET" url, .clientDo req], ApiCep.zero, some err⟩
    | .ok res =>
      match res.Body with
      | .error err => ⟨[.newRequest "GET" url, .clientDo req], ApiCep.zero, some err⟩
      | .ok responseData =>
        match env.unmarshalApiCep responseData with
        | .error err => ⟨[.newRequest "GET" url, .clientDo req], ApiCep.zero, some err⟩
        | .ok cepData =>
          if res.StatusCode = StatusOK then
            ⟨[.newRequest "GET" url, .clientDo req], cepData, none⟩
          else
            ⟨[.newRequest "GET" url, .clientDo req], ApiCep.zero,
              some (errorsNew "Erro ao fazer a request na API APICEP")⟩

/-! ## The body of `main` after the argument checks: goroutines, channels, deadline

`ch1` and `ch2` are made by `make(chan T)` with no capacity: a send completes only by meeting
a receive, and the only receiver is the `select` of `main`. The state records where each of
the three threads of control stands; an event is one of their statements being executed.
Both `go` statements come before the `select` and have no other effect, so the initial state
has both goroutines started and `main` about to execute the `select`. -/

/-- Where one of the two goroutines stands. -/
inductive Task (α : Type) where
  /-- started; its adapter call has not returned yet -/
  | requesting
  /-- the adapter returned `(data, nil)`; the statement `ch <- data` is next -/
  | atSend (data : α)
  /-- executing `ch <- data`: waiting for a receiver -/
  | blocked (data : α)
  /-- returned: after logging an error, or after its send was received -/
  | exited
  deriving DecidableEq, Repr

/-- How the `select` of `main` resolved. -/
inductive Outcome where
  | viaCep (cep : ViaCep)
  | apiCep (cep : ApiCep)
  | timeout
  deriving DecidableEq, Repr

/-- Where `main` stands. -/
inductive MainPC where
  /-- about to execute the `select` -/
  | atSelect
  /-- waiting in the `select`, no case ready when it was executed -/
  | parked
  /-- one case of the `select` ran; `main` prints or logs and returns -/
  | returned (o : Outcome)
  deriving DecidableEq, Repr

/-- The three cases of the `select`. -/
inductive Branch where
  | ch1
  | ch2
  | ctxDone
  deriving DecidableEq, Repr

/-- A call of `fmt.Printf` by `main`: which header, and the payload printed under it. -/
inductive Printed where
  /-- the call `fmt.Printf("A Api ViaCEP retornou:\n %+v\n", cep)` -/
  | viaCep (cep : ViaCep)
  /-- the call `fmt.Printf("A Api ApiCEP retornou:\n %+v\n", cep)` -/
  | apiCep (cep : ApiCep)
  deriving DecidableEq, Repr

/-- An adapter being called, with its argument. -/
inductive Invocation where
  | requestViaCEP (cep : String)
  | requestApiCEP (cep : String)
  deriving DecidableEq, Repr

/-- One statement being executed. -/
inductive Event where
  /-- first goroutine: `requestViaCEP` is called and returns; an error is logged -/
  | viaCepReturns
  /-- first goroutine: `ch1 <- data` -/
  | viaCepSends
  /-- second goroutine: `requestApiCEP` is called and returns; an error is logged -/
  | apiCepReturns
  /-- second goroutine: `ch2 <- data` -/
  | apiCepSends
  /-- the timer of `context.WithTimeout(..., time.Second)` fires: `ctx.Done()` is closed -/
  | deadline
  /-- main thread: the `select` is executed and takes a case that is ready -/
  | select (b : Branch)
  /-- main thread: the `select` is executed with no case ready, and `main` waits -/
  | park
  deriving DecidableEq, Repr

/-- The state of the race. -/
structure State where
  main : MainPC
  g1 : Task ViaCep
  g2 : Task ApiCep
  /-- the deadline has fired: `ctx.Done()` is closed -/
  fired : Bool
  /-- lines written by `log.Println` -/
  log : List String
  /-- calls of `fmt.Printf` -/
  stdout : List Printed
  /-- adapter calls made so far -/
  invoked : List Invocation
  /-- HTTP library calls made so far -/
  calls : List HttpCall
  deriving Repr

/-- The state after `main` has started both goroutines. -/
def State.init : State :=
  { main := .atSelect, g1 := .requesting, g2 := .requesting, fired := false,
    log := [], stdout := [], invoked := [], calls := [] }

/-- One step: the state after event `ev`, or `none` when `ev` cannot happen in `s`.
`arg` is `args[1]`. -/
def step? (env : Env) (arg : String) (s : State) : Event → Option State
  | .viaCepReturns =>
    match s.g1 with
    | .requesting =>
      let cep := stringsReplace arg "-" "" (-1)
      let r := requestViaCEP env cep
      match r.err with
      | some err =>
        some { s with g1 := .exited, log := s.log ++ [err.msg],
                      invoked := s.invoked ++ [.requestViaCEP cep], calls := s.calls ++ r.calls }
      | none =>
        some { s with g1 := .atSend r.data,
                      invoked := s.invoked ++ [.requestViaCEP cep], calls := s.calls ++ r.calls }
    | _ => none
  | .apiCepReturns =>
    match s.g2 with
    | .requesting =>
      let cep := arg
      let r := requestApiCEP env cep
      match r.err with
      | some err =>
        some { s with g2 := .exited, log := s.log ++ [err.msg],
                      invoked := s.invoked ++ [.requestApiCEP cep], calls := s.calls ++ r.calls }
      | none =>
        some { s with g2 := .atSend r.data,
                      invoked := s.invoked ++ [.requestApiCEP cep], calls := s.calls ++ r.calls }
    | _ => none
  | .viaCepSends =>
    match s.g1 with
    | .atSend data =>
      match s.main with
      | .parked =>
        some { s with g1 := .exited, main := .returned (.viaCep data),
                      stdout := s.stdout ++ [.viaCep data] }
      | _ => some { s with g1 := .blocked data }
    | _ => none
  | .apiCepSends =>
    match s.g2 with
    | .atSend data =>
      match s.main with
      | .parked =>
        some { s with g2 := .exited, main := .returned (.apiCep data),
                      stdout := s.stdout ++ [.apiCep data] }
      | _ => some { s with g2 := .blocked data }
    | _ => none
  | .deadline =>
    if s.fired then none
    else
      match s.main with
      | .parked =>
        some { s with fired := true, main := .returned .timeout, log := s.log ++ ["Timeout"] }
      | _ => some { s with fired := true }
  | .select .ch1 =>
    match s.main with
    | .atSelect =>
      match s.g1 with
      | .blocked data =>
        some { s with g1 := .exited, main := .returned (.viaCep data),
                      stdout := s.stdout ++ [.viaCep data] }
      | _ => none
    | _ => none
  | .select .ch2 =>
    match s.main with
    | .atSelect =>
      match s.g2 with
      | .blocked data =>
        some { s with g2 := .exited, main := .returned (.apiCep data),
                      stdout := s.stdout ++ [.apiCep data] }
      | _ => none
    | _ => none
  | .select .ctxDone =>
    match s.main with
    | .atSelect =>
      if s.fired then some { s with main := .returned .timeout, log := s.log ++ ["Timeout"] }
      else none
    | _ => none
  | .park =>
    match s.main with
    | .atSelect =>
      match s.g1 with
      | .blocked _ => none
      | _ =>
        match s.g2 with
        | .blocked _ => none
        | _ => if s.fired then none else some { s with main := .parked }
    | _ => none

/-- The state after `ev`; an event that cannot happen leaves the state as it is. -/
def exec (env : Env) (arg : String) (s : State) (ev : Event) : State :=
  (step? env arg s ev).getD s

/-- The state after a schedule, a sequence of events in the order they are attempted. -/
def runFrom (env : Env) (arg : String) (s : State) (sched : List Event) : State :=
  sched.foldl (exec env arg) s

/-- The race of `main` for `args[1] = arg` under a schedule. -/
def race (env : Env) (arg : String) (sched : List Event) : State :=
  runFrom env arg State.init sched

/-- The outcome of the race, once `main` has returned. -/
def State.outcome (s : State) : Option Outcome :=
  match s.main with
  | .returned o => some o
  | _ => none

/-- No event can happen in `s`. -/
def State.quiescent (env : Env) (arg : String) (s : State) : Prop :=
  ∀ ev, step? env arg s ev = none

/-! ## `main` -/

/-- How a run of `main` stands at the end of a schedule. -/
inductive Exit where
  /-- the function returned; the process ends with status 0 -/
  | returned
  /-- run-time panic, index out of range -/
  | panicked
  /-- the function is still before or in the `select` -/
  | waiting
  deriving DecidableEq, Repr

/-- What a run of `main` did. -/
structure Run where
  exit : Exit
  /-- the two `go` statements were executed -/
  launched : Bool
  outcome : Option Outcome
  log : List String
  stdout : List Printed
  invoked : List Invocation
  calls : List HttpCall
  deriving Repr

/-- A run that stops at one of the argument checks with message `msg`. -/
def Run.rejected (msg : String) : Run :=
  { exit := .returned, launched := false, outcome := none, log := [msg], stdout := [],
    invoked := [], calls := [] }

/-- A run that panics at `args[1]`. -/
def Run.panic : Run :=
  { exit := .panicked, launched := false, outcome := none, log := [], stdout := [],
    invoked := [], calls := [] }

/-- The run whose race reached state `s`. -/
def Run.ofState (s : State) : Run :=
  { exit := match s.main with
      | .returned _ => .returned
      | _ => .waiting
    launched := true, outcome := s.outcome, log := s.log, stdout := s.stdout,
    invoked := s.invoked, calls := s.calls }

/-- The function `main`, for `os.Args = args` and a schedule of the race. -/
def main (env : Env) (args : List String) (sched : List Event) : Run :=
  if args.length > 2 then Run.rejected "You must pass only a single CEP"
  else if args.length = 1 then Run.rejected "You must provide at least one CEP"
  else
    match args[1]? with
    | none => Run.panic
    | some arg =>
      if !stringsContains arg "-" then
        Run.rejected "You must enter a CEP in the format XXXXX-XXX"
      else Run.ofState (race env arg sched)

/-! ## Timed scenarios -/

/-- The deadline of the race in milliseconds, `time.Second`. -/
def deadlineMs : Nat := 1000

/-- The schedule in which `main` is waiting in the `select` from the start, the ViaCEP
adapter answers after `tA` milliseconds, the ApiCEP adapter after `tB`, and the deadline
fires after `deadlineMs`; each goroutine executes its send right after its adapter returns.
Events at the same instant are taken in the order ViaCEP, ApiCEP, deadline. -/
def timeline (tA tB : Nat) : List Event :=
  Event.park ::
    ((List.insertionSort (fun x y : Nat × List Event => x.1 ≤ y.1)
      [(tA, [Event.viaCepReturns, Event.viaCepSends]),
       (tB, [Event.apiCepReturns, Event.apiCepSends]),
       (deadlineMs, [Event.deadline])]).map Prod.snd).flatten

/-- The state after a schedule all of whose events can happen, one after the other; `none`
when one of them cannot. -/
def run? (env : Env) (arg : String) (s : State) : List Event → Option State
  | [] => some s
  | ev :: rest => (step? env arg s ev).bind fun s' => run? env arg s' rest

/-! ## The spec's wording of the hyphen-free key -/

/-- The argument with every `-` removed, as the spec words it. -/
def removeHyphens (a : String) : String := ⟨a.data.filter (fun c => c ≠ '-')⟩

/-- The string is made of decimal digits only. -/
def allDigits (k : String) : Prop := ∀ c ∈ k.data, c.isDigit = true

/-! ## An invariant of the race -/

/-- What holds in every state of a race. -/
structure Inv (env : Env) (arg : String) (s : State) : Prop where
  parked_fired : s.main = .parked → s.fired = false
  parked_g1 : s.main = .parked → ∀ d, s.g1 ≠ .blocked d
  parked_g2 : s.main = .parked → ∀ d, s.g2 ≠ .blocked d
  g1_data : ∀ d, (s.g1 = .atSend d ∨ s.g1 = .blocked d) →
    (requestViaCEP env (stringsReplace arg "-" "" (-1))).err = none ∧
    (requestViaCEP env (stringsReplace arg "-" "" (-1))).data = d
  g2_data : ∀ d, (s.g2 = .atSend d ∨ s.g2 = .blocked d) →
    (requestApiCEP env arg).err = none ∧ (requestApiCEP env arg).data = d
  main_via : ∀ d, s.main = .returned (.viaCep d) →
    (requestViaCEP env (stringsReplace arg "-" "" (-1))).err = none ∧
    (requestViaCEP env (stringsReplace arg "-" "" (-1))).data = d ∧ s.g1 = .exited
  main_api : ∀ d, s.main = .returned (.apiCep d) →
    (requestApiCEP env arg).err = none ∧ (requestApiCEP env arg).data = d ∧ s.g2 = .exited
  main_timeout : s.main = .returned .timeout → s.fired = true
  stdout_eq : s.stdout = match s.main with
    | .returned (.viaCep d) => [.viaCep d]
    | .returned (.apiCep d) => [.apiCep d]
    | _ => []

/-! ## Sample environments -/

/-- A ViaCEP answer for Avenida Paulista. -/
def paulistaViaCep : ViaCep :=
  { ViaCep.zero with Cep := "01310-100", Logradouro := "Avenida Paulista",
                     Localidade := "São Paulo", Uf := "SP" }

/-- An ApiCEP answer for Avenida Paulista. -/
def paulistaApiCep : ApiCep :=
  { ApiCep.zero with Code := "01310-100", State := "SP", City := "São Paulo", Status := 200,
                     Ok := true }

/-- Libraries for which both providers answer 200 with a body that decodes. -/
def sampleEnv : Env where
  httpGet := fun _ => .ok ⟨200, .ok [123, 125]⟩
  newRequestErr := fun _ _ => none
  clientDo := fun _ => .ok ⟨200, .ok [123, 125]⟩
  unmarshalViaCep := fun _ => .ok paulistaViaCep
  unmarshalApiCep := fun _ => .ok paulistaApiCep

/-- Libraries for which both providers answer 200 with a body that decodes and carries the
provider's "not found" indicator. -/
def notFoundEnv : Env where
  httpGet := fun _ => .ok ⟨200, .ok [123, 125]⟩
  newRequestErr := fun _ _ => none
  clientDo := fun _ => .ok ⟨200, .ok [123, 125]⟩
  unmarshalViaCep := fun _ => .ok { ViaCep.zero with Error := "true" }
  unmarshalApiCep := fun _ =>
    .ok { ApiCep.zero with Status := 404, Ok := false, StatusText := "CEP not found" }

/-- Libraries for which both HTTP calls fail. -/
def failEnv : Env where
  httpGet := fun _ => .error ⟨"dial tcp: connection refused"⟩
  newRequestErr := fun _ _ => none
  clientDo := fun _ => .error ⟨"dial tcp: connection refused"⟩
  unmarshalViaCep := fun _ => .ok ViaCep.zero
  unmarshalApiCep := fun _ => .ok ApiCep.zero

/-! ## A bound on the length of a race -/

/-- How many statements `main` may still execute. -/
def MainPC.fuel : MainPC → Nat
  | .atSelect => 2
  | .parked => 1
  | .returned _ => 0

/-- How many statements a goroutine may still execute. -/
def Task.fuel {α : Type} : Task α → Nat
  | .requesting => 3
  | .atSend _ => 2
  | .blocked _ => 1
  | .exited => 0

/-- An upper bound on the number of events that can still happen. -/
def State.fuel (s : State) : Nat :=
  s.main.fuel + s.g1.fuel + s.g2.fuel + (if s.fired then 0 else 1)

/-! ## The strings functions at the pattern `-` -/

theorem containsChars_hyphen (l : List Char) : containsChars ['-'] l = true ↔ '-' ∈ l := by
  induction l with
  | nil => simp [containsChars, List.isPrefixOf]
  | cons c cs ih =>
    simp only [containsChars, List.isPrefixOf, Bool.or_eq_true, ih, List.mem_cons]
    constructor
    · rintro (h | h)
      · left; simpa using h
      · right; exact h
    · rintro (h | h)
      · left; simpa using h
      · right; exact h

theorem stringsContains_hyphen (s : String) : stringsContains s "-" = true ↔ '-' ∈ s.data := by
  unfold stringsContains
  exact containsChars_hyphen s.data

theorem replaceChars_hyphen (l : List Char) :
    replaceChars ['-'] [] 0 none l = l.filter (fun c => c ≠ '-') := by
  induction l with
  | nil => simp [replaceChars]
  | cons c cs ih =>
    by_cases h : c = '-'
    · subst h
      simp [replaceChars, List.isPrefixOf, decLimit, ih]
    · have h' : ('-' == c) = false := by simpa using fun e => h e.symm
      simp [replaceChars, List.isPrefixOf, ih, h, h']

theorem stringsReplace_hyphen (a : String) : stringsReplace a "-" "" (-1) = removeHyphens a := by
  have h1 : ¬ (("-" : String) = "" ∨ (-1 : Int) = 0) := by decide
  have h2 : ("-" : String).data = ['-'] := rfl
  have h3 : ("" : String).data = [] := rfl
  simp only [stringsReplace, h1, if_false, h2, h3]
  simp [replaceChars_hyphen, removeHyphens]

/-! ## Schedules -/

theorem runFrom_append (env : Env) (arg : String) (s : State) (xs ys : List Event) :
    runFrom env arg s (xs ++ ys) = runFrom env arg (runFrom env arg s xs) ys := by
  simp [runFrom, List.foldl_append]

theorem runFrom_cons (env : Env) (arg : String) (s : State) (ev : Event) (rest : List Event) :
    runFrom env arg s (ev :: rest) = runFrom env arg (exec env arg s ev) rest := rfl

theorem runFrom_induction (env : Env) (arg : String) (P : State → Prop)
    (hstep : ∀ s ev s', P s → step? env arg s ev = some s' → P s') :
    ∀ (sched : List Event) (s : State), P s → P (runFrom env arg s sched) := by
  intro sched
  induction sched with
  | nil => intro s hs; exact hs
  | cons ev rest ih =>
    intro s hs
    rw [runFrom_cons]
    apply ih
    unfold exec
    cases h : step? env arg s ev with
    | none => simpa using hs
    | some s' => simpa using hstep s ev s' hs h

/-! ## What each event needs and does -/

theorem step?_viaCepReturns (env : Env) (arg : String) (s s' : State)
    (hs : step? env arg s .viaCepReturns = some s') :
    s.g1 = .requesting ∧
    ((∃ err, (requestViaCEP env (stringsReplace arg "-" "" (-1))).err = some err ∧
        s' = { s with g1 := .exited, log := s.log ++ [err.msg],
                      invoked := s.invoked ++ [.requestViaCEP (stringsReplace arg "-" "" (-1))],
                      calls := s.calls ++
                        (requestViaCEP env (stringsReplace arg "-" "" (-1))).calls }) ∨
     ((requestViaCEP env (stringsReplace arg "-" "" (-1))).err = none ∧
        s' = { s with g1 := .atSend (requestViaCEP env (stringsReplace arg "-" "" (-1))).data,
                      invoked := s.invoked ++ [.requestViaCEP (stringsReplace arg "-" "" (-1))],
                      calls := s.calls ++
                        (requestViaCEP env (stringsReplace arg "-" "" (-1))).calls })) := by
  simp only [step?] at hs
  split at hs
  · refine ⟨by assumption, ?_⟩
    split at hs
    · left; cases hs; exact ⟨_, by assumption, rfl⟩
    · right; cases hs; exact ⟨by assumption, rfl⟩
  · contradiction

theorem step?_apiCepReturns (env : Env) (arg : String) (s s' : State)
    (hs : step? env arg s .apiCepReturns = some s') :
    s.g2 = .requesting ∧
    ((∃ err, (requestApiCEP env arg).err = some err ∧
        s' = { s with g2 := .exited, log := s.log ++ [err.msg],
                      invoked := s.invoked ++ [.requestApiCEP arg],
                      calls := s.calls ++ (requestApiCEP env arg).calls }) ∨
     ((requestApiCEP env arg).err = none ∧
        s' = { s with g2 := .atSend (requestApiCEP env arg).data,
                      invoked := s.invoked ++ [.requestApiCEP arg],
                      calls := s.calls ++ (requestApiCEP env arg).calls })) := by
  simp only [step?] at hs
  split at hs
  · refine ⟨by assumption, ?_⟩
    split at hs
    · left; cases hs; exact ⟨_, by assumption, rfl⟩
    · right; cases hs; exact ⟨by assumption, rfl⟩
  · contradiction

theorem step?_viaCepSends (env : Env) (arg : String) (s s' : State)
    (hs : step? env arg s .viaCepSends = some s') :
    ∃ data, s.g1 = .atSend data ∧
      ((s.main = .parked ∧
          s' = { s with g1 := .exited, main := .returned (.viaCep data),
                        stdout := s.stdout ++ [.viaCep data] }) ∨
       (s.main ≠ .parked ∧ s' = { s with g1 := .blocked data })) := by
  simp only [step?] at hs
  split at hs
  · rename_i data hg
    refine ⟨data, hg, ?_⟩
    split at hs
    · left; cases hs; exact ⟨by assumption, rfl⟩
    · right; cases hs; exact ⟨by assumption, rfl⟩
  · contradiction

theorem step?_apiCepSends (env : Env) (arg : String) (s s' : State)
    (hs : step? env arg s .apiCepSends = some s') :
    ∃ data, s.g2 = .atSend data ∧
      ((s.main = .parked ∧
          s' = { s with g2 := .exited, main := .returned (.apiCep data),
                        stdout := s.stdout ++ [.apiCep data] }) ∨
       (s.main ≠ .parked ∧ s' = { s with g2 := .blocked data })) := by
  simp only [step?] at hs
  split at hs
  · rename_i data hg
    refine ⟨data, hg, ?_⟩
    split at hs
    · left; cases hs; exact ⟨by assumption, rfl⟩
    · right; cases hs; exact ⟨by assumption, rfl⟩
  · contradiction

theorem step?_deadline (env : Env) (arg : String) (s s' : State)
    (hs : step? env arg s .deadline = some s') :
    s.fired = false ∧
      ((s.main = .parked ∧
          s' = { s with fired := true, main := .returned .timeout,
                        log := s.log ++ ["Timeout"] }) ∨
       (s.main ≠ .parked ∧ s' = { s with fired := true })) := by
  simp only [step?] at hs
  split at hs
  · contradiction
  · refine ⟨by simpa using ‹¬ s.fired = true›, ?_⟩
    split at hs
    · left; cases hs; exact ⟨by assumption, rfl⟩
    · right; cases hs; exact ⟨by assumption, rfl⟩

theorem step?_select_ch1 (env : Env) (arg : String) (s s' : State)
    (hs : step? env arg s (.select .ch1) = some s') :
    s.main = .atSelect ∧ ∃ data, s.g1 = .blocked data ∧
      s' = { s with g1 := .exited, main := .returned (.viaCep data),
                    stdout := s.stdout ++ [.viaCep data] } := by
  simp only [step?] at hs
  split at hs
  · refine ⟨by assumption, ?_⟩
    split at hs
    · cases hs; exact ⟨_, by assumption, rfl⟩
    · contradiction
  · contradiction

theorem step?_select_ch2 (env : Env) (arg : String) (s s' : State)
    (hs : step? env arg s (.select .ch2) = some s') :
    s.main = .atSelect ∧ ∃ data, s.g2 = .blocked data ∧
      s' = { s with g2 := .exited, main := .returned (.apiCep data),
                    stdout := s.stdout ++ [.apiCep data] } := by
  simp only [step?] at hs
  split at hs
  · refine ⟨by assumption, ?_⟩
    split at hs
    · cases hs; exact ⟨_, by assumption, rfl⟩
    · contradiction
  · contradiction

theorem step?_select_ctxDone (env : Env) (arg : String) (s s' : State)
    (hs : step? env arg s (.select .ctxDone) = some s') :
    s.main = .atSelect ∧ s.fired = true ∧
      s' = { s with main := .returned .timeout, log := s.log ++ ["Timeout"] } := by
  simp only [step?] at hs
  split at hs
  · refine ⟨by assumption, ?_⟩
    split at hs
    · cases hs; exact ⟨by assumption, rfl⟩
    · contradiction
  · contradiction

theorem step?_park (env : Env) (arg : String) (s s' : State)
    (hs : step? env arg s .park = some s') :
    s.main = .atSelect ∧ (∀ d, s.g1 ≠ .blocked d) ∧ (∀ d, s.g2 ≠ .blocked d) ∧ s.fired = false ∧
      s' = { s with main := .parked } := by
  simp only [step?] at hs
  split at hs
  · split at hs
    · contradiction
    · split at hs
      · contradiction
      · split at hs
        · contradiction
        · cases hs
          simp_all
  · contradiction

/-! ## The invariant holds in every state of a race -/

theorem Inv.init (env : Env) (arg : String) : Inv env arg State.init := by
  constructor <;> simp [State.init]

theorem Inv.step (env : Env) (arg : String) (s s' : State) (ev : Event)
    (hI : Inv env arg s) (hs : step? env arg s ev = some s') : Inv env arg s' := by
  obtain ⟨h1, h2, h3, h4, h5, h6, h7, h8, h9⟩ := hI
  cases ev with
  | viaCepReturns =>
    obtain ⟨p1, ⟨err, p2, rfl⟩ | ⟨p2, rfl⟩⟩ := step?_viaCepReturns env arg s s' hs <;>
      constructor <;> first | assumption | (intros; simp_all)
  | apiCepReturns =>
    obtain ⟨p1, ⟨err, p2, rfl⟩ | ⟨p2, rfl⟩⟩ := step?_apiCepReturns env arg s s' hs <;>
      constructor <;> first | assumption | (intros; simp_all)
  | viaCepSends =>
    obtain ⟨data, p1, ⟨p2, rfl⟩ | ⟨p2, rfl⟩⟩ := step?_viaCepSends env arg s s' hs <;>
      constructor <;> first | assumption | (intros; simp_all)
  | apiCepSends =>
    obtain ⟨data, p1, ⟨p2, rfl⟩ | ⟨p2, rfl⟩⟩ := step?_apiCepSends env arg s s' hs <;>
      constructor <;> first | assumption | (intros; simp_all)
  | deadline =>
    obtain ⟨p1, ⟨p2, rfl⟩ | ⟨p2, rfl⟩⟩ := step?_deadline env arg s s' hs <;>
      constructor <;> first | assumption | (intros; simp_all)
  | select b =>
    cases b with
    | ch1 =>
      obtain ⟨p1, data, p2, rfl⟩ := step?_select_ch1 env arg s s' hs
      constructor <;> first | assumption | (intros; simp_all)
    | ch2 =>
      obtain ⟨p1, data, p2, rfl⟩ := step?_select_ch2 env arg s s' hs
      constructor <;> first | assumption | (intros; simp_all)
    | ctxDone =>
      obtain ⟨p1, p2, rfl⟩ := step?_select_ctxDone env arg s s' hs
      constructor <;> first | assumption | (intros; simp_all)
  | park =>
    obtain ⟨p1, p2, p3, p4, rfl⟩ := step?_park env arg s s' hs
    constructor <;> first | assumption | (intros; simp_all)

theorem race_inv (env : Env) (arg : String) (sched : List Event) :
    Inv env arg (race env arg sched) :=
  runFrom_induction env arg (Inv env arg) (fun s ev s' h hs => Inv.step env arg s s' ev h hs)
    sched State.init (Inv.init env arg)

/-! ## Calls made by a run -/

theorem race_invoked (env : Env) (arg : String) (sched : List Event) :
    (∀ i ∈ (race env arg sched).invoked,
      i = .requestViaCEP (stringsReplace arg "-" "" (-1)) ∨ i = .requestApiCEP arg) ∧
    (∀ c ∈ (race env arg sched).calls,
      c ∈ (requestViaCEP env (stringsReplace arg "-" "" (-1))).calls ∨
      c ∈ (requestApiCEP env arg).calls) := by
  refine runFrom_induction env arg
    (fun s => (∀ i ∈ s.invoked,
        i = .requestViaCEP (stringsReplace arg "-" "" (-1)) ∨ i = .requestApiCEP arg) ∧
      (∀ c ∈ s.calls, c ∈ (requestViaCEP env (stringsReplace arg "-" "" (-1))).calls ∨
        c ∈ (requestApiCEP env arg).calls)) ?_ sched State.init ?_
  · intro s ev s' hP hs
    obtain ⟨hi, hc⟩ := hP
    cases ev with
    | viaCepReturns =>
      obtain ⟨-, ⟨err, -, rfl⟩ | ⟨-, rfl⟩⟩ := step?_viaCepReturns env arg s s' hs <;>
      · refine ⟨fun i h => ?_, fun c h => ?_⟩
        · rcases List.mem_append.1 h with h | h
          · exact hi i h
          · left; simpa using h
        · rcases List.mem_append.1 h with h | h
          · exact hc c h
          · left; exact h
    | apiCepReturns =>
      obtain ⟨-, ⟨err, -, rfl⟩ | ⟨-, rfl⟩⟩ := step?_apiCepReturns env arg s s' hs <;>
      · refine ⟨fun i h => ?_, fun c h => ?_⟩
        · rcases List.mem_append.1 h with h | h
          · exact hi i h
          · right; simpa using h
        · rcases List.mem_append.1 h with h | h
          · exact hc c h
          · right; exact h
    | viaCepSends =>
      obtain ⟨data, -, ⟨-, rfl⟩ | ⟨-, rfl⟩⟩ := step?_viaCepSends env arg s s' hs <;>
        exact ⟨hi, hc⟩
    | apiCepSends =>
      obtain ⟨data, -, ⟨-, rfl⟩ | ⟨-, rfl⟩⟩ := step?_apiCepSends env arg s s' hs <;>
        exact ⟨hi, hc⟩
    | deadline =>
      obtain ⟨-, ⟨-, rfl⟩ | ⟨-, rfl⟩⟩ := step?_deadline env arg s s' hs <;> exact ⟨hi, hc⟩
    | select b =>
      cases b with
      | ch1 => obtain ⟨-, data, -, rfl⟩ := step?_select_ch1 env arg s s' hs; exact ⟨hi, hc⟩
      | ch2 => obtain ⟨-, data, -, rfl⟩ := step?_select_ch2 env arg s s' hs; exact ⟨hi, hc⟩
      | ctxDone => obtain ⟨-, -, rfl⟩ := step?_select_ctxDone env arg s s' hs; exact ⟨hi, hc⟩
    | park => obtain ⟨-, -, -, -, rfl⟩ := step?_park env arg s s' hs; exact ⟨hi, hc⟩
  · simp [State.init]

theorem requestViaCEP_calls (env : Env) (cep : String) :
    (requestViaCEP env cep).calls = [.get ("https://viacep.com.br/ws/" ++ cep ++ "/json")] := by
  unfold requestViaCEP
  simp only
  split
  · rfl
  · split
    · rfl
    · split
      · rfl
      · split
        · split <;> rfl
        · rfl

theorem requestApiCEP_calls (env : Env) (cep : String) :
    (requestApiCEP env cep).calls =
      .newRequest "GET" ("https://cdn.apicep.com/file/apicep/" ++ cep ++ ".json") ::
        (match env.newRequestErr "GET" ("https://cdn.apicep.com/file/apicep/" ++ cep ++ ".json") with
         | some _ => []
         | none => [.clientDo ⟨"GET", "https://cdn.apicep.com/file/apicep/" ++ cep ++ ".json"⟩]) := by
  unfold requestApiCEP newRequest
  simp only
  cases env.newRequestErr "GET" ("https://cdn.apicep.com/file/apicep/" ++ cep ++ ".json") with
  | some e => rfl
  | none =>
    simp only
    split
    · rfl
    · split
      · rfl
      · split
        · rfl
        · split <;> rfl

theorem main_accepts (env : Env) (prog a : String) (sched : List Event) (h : '-' ∈ a.data) :
    main env [prog, a] sched = Run.ofState (race env a sched) := by
  have hc : stringsContains a "-" = true := (stringsContains_hyphen a).2 h
  simp [main, hc]

theorem main_rejects (env : Env) (prog : String) (pos : List String) (sched : List Event)
    (h : ¬ ∃ a, pos = [a] ∧ '-' ∈ a.data) :
    ∃ msg, main env (prog :: pos) sched = Run.rejected msg := by
  match pos with
  | [] => exact ⟨"You must provide at least one CEP", by simp [main]⟩
  | [a] =>
    have hc : stringsContains a "-" = false := by
      cases hb : stringsContains a "-" with
      | false => rfl
      | true => exact absurd ⟨a, rfl, (stringsContains_hyphen a).1 hb⟩ h
    exact ⟨"You must enter a CEP in the format XXXXX-XXX", by simp [main, hc]⟩
  | a :: b :: rest => exact ⟨"You must pass only a single CEP", by simp [main]⟩

/-! ## The adapters, case by case -/

theorem requestViaCEP_ok (env : Env) (cep : String) (resp : Response) (body : List Nat)
    (v : ViaCep) (hg : env.httpGet ("https://viacep.com.br/ws/" ++ cep ++ "/json") = .ok resp)
    (hb : resp.Body = .ok body) (hs : resp.StatusCode = 200)
    (hu : env.unmarshalViaCep body = .ok v) :
    requestViaCEP env cep =
      ⟨[.get ("https://viacep.com.br/ws/" ++ cep ++ "/json")], v, none⟩ := by
  have h400 : ¬ resp.StatusCode = StatusBadRequest := by rw [hs]; decide
  have h200 : resp.StatusCode = StatusOK := hs
  unfold requestViaCEP
  simp only [hg, hb, hu, if_neg h400, if_pos h200]

theorem requestViaCEP_err_none (env : Env) (cep : String)
    (h : (requestViaCEP env cep).err = none) :
    ∃ resp body v, env.httpGet ("https://viacep.com.br/ws/" ++ cep ++ "/json") = .ok resp ∧
      resp.Body = .ok body ∧ resp.StatusCode = 200 ∧ env.unmarshalViaCep body = .ok v := by
  unfold requestViaCEP at h
  simp only at h
  split at h
  · simp at h
  · rename_i req hg
    split at h
    · simp at h
    · split at h
      · simp at h
      · rename_i res hb
        split at h
        · rename_i h200
          split at h
          · simp at h
          · rename_i v hu
            exact ⟨req, res, v, hg, hb, h200, hu⟩
        · simp at h

theorem requestViaCEP_zero (env : Env) (cep : String)
    (h : (requestViaCEP env cep).err ≠ none) : (requestViaCEP env cep).data = ViaCep.zero := by
  by_contra hne
  apply h
  unfold requestViaCEP at hne ⊢
  simp only at hne ⊢
  split
  · simp_all
  · split
    · simp_all
    · split
      · simp_all
      · split
        · split
          · simp_all
          · rfl
        · simp_all

theorem requestApiCEP_ok (env : Env) (cep : String) (resp : Response) (body : List Nat)
    (v : ApiCep)
    (hn : env.newRequestErr "GET" ("https://cdn.apicep.com/file/apicep/" ++ cep ++ ".json") = none)
    (hd : env.clientDo ⟨"GET", "https://cdn.apicep.com/file/apicep/" ++ cep ++ ".json"⟩ = .ok resp)
    (hb : resp.Body = .ok body) (hs : resp.StatusCode = 200)
    (hu : env.unmarshalApiCep body = .ok v) :
    requestApiCEP env cep =
      ⟨[.newRequest "GET" ("https://cdn.apicep.com/file/apicep/" ++ cep ++ ".json"),
        .clientDo ⟨"GET", "https://cdn.apicep.com/file/apicep/" ++ cep ++ ".json"⟩], v, none⟩ := by
  have h200 : resp.StatusCode = StatusOK := hs
  unfold requestApiCEP newRequest
  simp only [hn, hd, hb, hu, if_pos h200]

theorem requestApiCEP_err_none (env : Env) (cep : String)
    (h : (requestApiCEP env cep).err = none) :
    env.newRequestErr "GET" ("https://cdn.apicep.com/file/apicep/" ++ cep ++ ".json") = none ∧
    ∃ resp body v,
      env.clientDo ⟨"GET", "https://cdn.apicep.com/file/apicep/" ++ cep ++ ".json"⟩ = .ok resp ∧
      resp.Body = .ok body ∧ resp.StatusCode = 200 ∧ env.unmarshalApiCep body = .ok v := by
  unfold requestApiCEP newRequest at h
  simp only at h
  cases hn : env.newRequestErr "GET" ("https://cdn.apicep.com/file/apicep/" ++ cep ++ ".json") with
  | some e => simp [hn] at h
  | none =>
    refine ⟨rfl, ?_⟩
    simp only [hn] at h
    split at h
    · simp at h
    · rename_i res hd
      split at h
      · simp at h
      · rename_i body hb
        split at h
        · simp at h
        · rename_i v hu
          split at h
          · rename_i h200
            exact ⟨res, body, v, hd, hb, h200, hu⟩
          · simp at h

theorem requestApiCEP_zero (env : Env) (cep : String)
    (h : (requestApiCEP env cep).err ≠ none) : (requestApiCEP env cep).data = ApiCep.zero := by
  by_contra hne
  apply h
  unfold requestApiCEP at hne ⊢
  simp only at hne ⊢
  split
  · simp_all
  · split
    · simp_all
    · split
      · simp_all
      · split
        · simp_all
        · split
          · rfl
          · simp_all

/-! ## Progress and stability -/

set_option linter.unusedTactic false in
set_option linter.unreachableTactic false in
theorem step?_fuel (env : Env) (arg : String) (s s' : State) (ev : Event)
    (hs : step? env arg s ev = some s') : s'.fuel < s.fuel := by
  cases ev with
  | viaCepReturns =>
    obtain ⟨p1, ⟨err, p2, rfl⟩ | ⟨p2, rfl⟩⟩ := step?_viaCepReturns env arg s s' hs <;>
      first | (simp [State.fuel, p1, Task.fuel]; done) | (simp [State.fuel, p1, Task.fuel]; omega)
  | apiCepReturns =>
    obtain ⟨p1, ⟨err, p2, rfl⟩ | ⟨p2, rfl⟩⟩ := step?_apiCepReturns env arg s s' hs <;>
      first | (simp [State.fuel, p1, Task.fuel]; done) | (simp [State.fuel, p1, Task.fuel]; omega)
  | viaCepSends =>
    obtain ⟨data, p1, ⟨p2, rfl⟩ | ⟨p2, rfl⟩⟩ := step?_viaCepSends env arg s s' hs <;>
      first | (simp [State.fuel, p1, p2, Task.fuel, MainPC.fuel]; done) | (simp [State.fuel, p1, p2, Task.fuel, MainPC.fuel]; omega)
  | apiCepSends =>
    obtain ⟨data, p1, ⟨p2, rfl⟩ | ⟨p2, rfl⟩⟩ := step?_apiCepSends env arg s s' hs <;>
      first | (simp [State.fuel, p1, p2, Task.fuel, MainPC.fuel]; done) | (simp [State.fuel, p1, p2, Task.fuel, MainPC.fuel]; omega)
  | deadline =>
    obtain ⟨p1, ⟨p2, rfl⟩ | ⟨p2, rfl⟩⟩ := step?_deadline env arg s s' hs <;>
      first | (simp [State.fuel, p1, p2, MainPC.fuel]; done) | (simp [State.fuel, p1, p2, MainPC.fuel]; omega)
  | select b =>
    cases b with
    | ch1 =>
      obtain ⟨p1, data, p2, rfl⟩ := step?_select_ch1 env arg s s' hs
      first | (simp [State.fuel, p1, p2, Task.fuel, MainPC.fuel]; done) | (simp [State.fuel, p1, p2, Task.fuel, MainPC.fuel]; omega)
    | ch2 =>
      obtain ⟨p1, data, p2, rfl⟩ := step?_select_ch2 env arg s s' hs
      first | (simp [State.fuel, p1, p2, Task.fuel, MainPC.fuel]; done) | (simp [State.fuel, p1, p2, Task.fuel, MainPC.fuel]; omega)
    | ctxDone =>
      obtain ⟨p1, p2, rfl⟩ := step?_select_ctxDone env arg s s' hs
      first | (simp [State.fuel, p1, p2, MainPC.fuel]; done) | (simp [State.fuel, p1, p2, MainPC.fuel]; omega)
  | park =>
    obtain ⟨p1, p2, p3, p4, rfl⟩ := step?_park env arg s s' hs
    first | (simp [State.fuel, p1, MainPC.fuel]; done) | (simp [State.fuel, p1, MainPC.fuel]; omega)

theorem step?_returned (env : Env) (arg : String) (s s' : State) (ev : Event) (o : Outcome)
    (hm : s.main = .returned o) (hs : step? env arg s ev = some s') :
    s'.main = .returned o ∧ s'.stdout = s.stdout := by
  cases ev with
  | viaCepReturns =>
    obtain ⟨p1, ⟨err, p2, rfl⟩ | ⟨p2, rfl⟩⟩ := step?_viaCepReturns env arg s s' hs <;>
      exact ⟨hm, rfl⟩
  | apiCepReturns =>
    obtain ⟨p1, ⟨err, p2, rfl⟩ | ⟨p2, rfl⟩⟩ := step?_apiCepReturns env arg s s' hs <;>
      exact ⟨hm, rfl⟩
  | viaCepSends =>
    obtain ⟨data, p1, ⟨p2, rfl⟩ | ⟨p2, rfl⟩⟩ := step?_viaCepSends env arg s s' hs
    · rw [hm] at p2; cases p2
    · exact ⟨hm, rfl⟩
  | apiCepSends =>
    obtain ⟨data, p1, ⟨p2, rfl⟩ | ⟨p2, rfl⟩⟩ := step?_apiCepSends env arg s s' hs
    · rw [hm] at p2; cases p2
    · exact ⟨hm, rfl⟩
  | deadline =>
    obtain ⟨p1, ⟨p2, rfl⟩ | ⟨p2, rfl⟩⟩ := step?_deadline env arg s s' hs
    · rw [hm] at p2; cases p2
    · exact ⟨hm, rfl⟩
  | select b =>
    cases b with
    | ch1 =>
      obtain ⟨p1, data, p2, rfl⟩ := step?_select_ch1 env arg s s' hs
      rw [hm] at p1; cases p1
    | ch2 =>
      obtain ⟨p1, data, p2, rfl⟩ := step?_select_ch2 env arg s s' hs
      rw [hm] at p1; cases p1
    | ctxDone =>
      obtain ⟨p1, p2, rfl⟩ := step?_select_ctxDone env arg s s' hs
      rw [hm] at p1; cases p1
  | park =>
    obtain ⟨p1, p2, p3, p4, rfl⟩ := step?_park env arg s s' hs
    rw [hm] at p1; cases p1

theorem runFrom_returned (env : Env) (arg : String) (s : State) (o : Outcome)
    (more : List Event) (hm : s.main = .returned o) :
    (runFrom env arg s more).main = .returned o ∧ (runFrom env arg s more).stdout = s.stdout :=
  runFrom_induction env arg (fun t => t.main = .returned o ∧ t.stdout = s.stdout)
    (fun t ev t' ht hs =>
      ⟨(step?_returned env arg t t' ev o ht.1 hs).1,
       (step?_returned env arg t t' ev o ht.1 hs).2.trans ht.2⟩)
    more s ⟨hm, rfl⟩

theorem State.outcome_eq (s : State) (o : Outcome) : s.outcome = some o ↔ s.main = .returned o := by
  unfold State.outcome
  cases s.main <;> simp

theorem race_append (env : Env) (arg : String) (xs ys : List Event) :
    race env arg (xs ++ ys) = runFrom env arg (race env arg xs) ys :=
  runFrom_append env arg State.init xs ys

/-- A goroutine that has not exited when `main` has returned never exits, if its adapter
succeeds. -/
theorem runFrom_g1_stuck (env : Env) (arg : String) (s : State) (more : List Event)
    (hok : (requestViaCEP env (stringsReplace arg "-" "" (-1))).err = none)
    (hm : ∃ o, s.main = .returned o) (hg : s.g1 ≠ .exited) :
    (runFrom env arg s more).g1 ≠ .exited := by
  refine (runFrom_induction env arg (fun t => (∃ o, t.main = .returned o) ∧ t.g1 ≠ .exited)
    ?_ more s ⟨hm, hg⟩).2
  rintro t ev t' ⟨⟨o, ho⟩, hne⟩ hs
  refine ⟨⟨o, (step?_returned env arg t t' ev o ho hs).1⟩, ?_⟩
  cases ev with
  | viaCepReturns =>
    obtain ⟨p1, ⟨err, p2, rfl⟩ | ⟨p2, rfl⟩⟩ := step?_viaCepReturns env arg t t' hs
    · rw [hok] at p2; cases p2
    · simp
  | apiCepReturns =>
    obtain ⟨p1, ⟨err, p2, rfl⟩ | ⟨p2, rfl⟩⟩ := step?_apiCepReturns env arg t t' hs <;>
      exact hne
  | viaCepSends =>
    obtain ⟨data, p1, ⟨p2, rfl⟩ | ⟨p2, rfl⟩⟩ := step?_viaCepSends env arg t t' hs
    · rw [ho] at p2; cases p2
    · simp
  | apiCepSends =>
    obtain ⟨data, p1, ⟨p2, rfl⟩ | ⟨p2, rfl⟩⟩ := step?_apiCepSends env arg t t' hs
    · rw [ho] at p2; cases p2
    · exact hne
  | deadline =>
    obtain ⟨p1, ⟨p2, rfl⟩ | ⟨p2, rfl⟩⟩ := step?_deadline env arg t t' hs
    · rw [ho] at p2; cases p2
    · exact hne
  | select b =>
    cases b with
    | ch1 =>
      obtain ⟨p1, data, p2, rfl⟩ := step?_select_ch1 env arg t t' hs
      rw [ho] at p1; cases p1
    | ch2 =>
      obtain ⟨p1, data, p2, rfl⟩ := step?_select_ch2 env arg t t' hs
      rw [ho] at p1; cases p1
    | ctxDone =>
      obtain ⟨p1, p2, rfl⟩ := step?_select_ctxDone env arg t t' hs
      rw [ho] at p1; cases p1
  | park =>
    obtain ⟨p1, p2, p3, p4, rfl⟩ := step?_park env arg t t' hs
    rw [ho] at p1; cases p1

theorem runFrom_g2_stuck (env : Env) (arg : String) (s : State) (more : List Event)
    (hok : (requestApiCEP env arg).err = none)
    (hm : ∃ o, s.main = .returned o) (hg : s.g2 ≠ .exited) :
    (runFrom env arg s more).g2 ≠ .exited := by
  refine (runFrom_induction env arg (fun t => (∃ o, t.main = .returned o) ∧ t.g2 ≠ .exited)
    ?_ more s ⟨hm, hg⟩).2
  rintro t ev t' ⟨⟨o, ho⟩, hne⟩ hs
  refine ⟨⟨o, (step?_returned env arg t t' ev o ho hs).1⟩, ?_⟩
  cases ev with
  | viaCepReturns =>
    obtain ⟨p1, ⟨err, p2, rfl⟩ | ⟨p2, rfl⟩⟩ := step?_viaCepReturns env arg t t' hs <;>
      exact hne
  | apiCepReturns =>
    obtain ⟨p1, ⟨err, p2, rfl⟩ | ⟨p2, rfl⟩⟩ := step?_apiCepReturns env arg t t' hs
    · rw [hok] at p2; cases p2
    · simp
  | viaCepSends =>
    obtain ⟨data, p1, ⟨p2, rfl⟩ | ⟨p2, rfl⟩⟩ := step?_viaCepSends env arg t t' hs
    · rw [ho] at p2; cases p2
    · exact hne
  | apiCepSends =>
    obtain ⟨data, p1, ⟨p2, rfl⟩ | ⟨p2, rfl⟩⟩ := step?_apiCepSends env arg t t' hs
    · rw [ho] at p2; cases p2
    · simp
  | deadline =>
    obtain ⟨p1, ⟨p2, rfl⟩ | ⟨p2, rfl⟩⟩ := step?_deadline env arg t t' hs
    · rw [ho] at p2; cases p2
    · exact hne
  | select b =>
    cases b with
    | ch1 =>
      obtain ⟨p1, data, p2, rfl⟩ := step?_select_ch1 env arg t t' hs
      rw [ho] at p1; cases p1
    | ch2 =>
      obtain ⟨p1, data, p2, rfl⟩ := step?_select_ch2 env arg t t' hs
      rw [ho] at p1; cases p1
    | ctxDone =>
      obtain ⟨p1, p2, rfl⟩ := step?_select_ctxDone env arg t t' hs
      rw [ho] at p1; cases p1
  | park =>
    obtain ⟨p1, p2, p3, p4, rfl⟩ := step?_park env arg t t' hs
    rw [ho] at p1; cases p1

/-! ## Timed scenarios and the first send -/

theorem timeline_viaCep_first (tA tB : Nat) (h1 : tA ≤ tB) (h2 : tA ≤ deadlineMs) :
    ∃ rest, timeline tA tB = .park :: .viaCepReturns :: .viaCepSends :: rest := by
  unfold timeline
  by_cases h3 : tB ≤ deadlineMs <;>
    simp [List.insertionSort, List.orderedInsert, h1, h2, h3]

theorem timeline_apiCep_first (tA tB : Nat) (h1 : tB < tA) (h2 : tB ≤ deadlineMs) :
    ∃ rest, timeline tA tB = .park :: .apiCepReturns :: .apiCepSends :: rest := by
  have h3 : ¬ tA ≤ tB := by omega
  unfold timeline
  by_cases h4 : tA ≤ deadlineMs <;>
    simp [List.insertionSort, List.orderedInsert, h2, h3, h4]

theorem race_viaCep_first (env : Env) (arg : String) (rest : List Event)
    (hok : (requestViaCEP env (stringsReplace arg "-" "" (-1))).err = none) :
    (race env arg (.park :: .viaCepReturns :: .viaCepSends :: rest)).main =
      .returned (.viaCep (requestViaCEP env (stringsReplace arg "-" "" (-1))).data) := by
  have : race env arg (.park :: .viaCepReturns :: .viaCepSends :: rest) =
      runFrom env arg (race env arg [.park, .viaCepReturns, .viaCepSends]) rest :=
    race_append env arg [.park, .viaCepReturns, .viaCepSends] rest
  rw [this]
  refine (runFrom_returned env arg _ _ rest ?_).1
  simp [race, runFrom, exec, step?, State.init, hok]

theorem race_apiCep_first (env : Env) (arg : String) (rest : List Event)
    (hok : (requestApiCEP env arg).err = none) :
    (race env arg (.park :: .apiCepReturns :: .apiCepSends :: rest)).main =
      .returned (.apiCep (requestApiCEP env arg).data) := by
  have : race env arg (.park :: .apiCepReturns :: .apiCepSends :: rest) =
      runFrom env arg (race env arg [.park, .apiCepReturns, .apiCepSends]) rest :=
    race_append env arg [.park, .apiCepReturns, .apiCepSends] rest
  rw [this]
  refine (runFrom_returned env arg _ _ rest ?_).1
  simp [race, runFrom, exec, step?, State.init, hok]

/-! ## Schedules that can happen, and resolution -/

theorem run?_eq_runFrom (env : Env) (arg : String) (sched : List Event) :
    ∀ s s', run? env arg s sched = some s' → runFrom env arg s sched = s' := by
  induction sched with
  | nil => intro s s' h; simpa [run?, runFrom] using h
  | cons ev rest ih =>
    intro s s' h
    rw [runFrom_cons]
    unfold run? at h
    cases hs : step? env arg s ev with
    | none => simp [hs] at h
    | some t =>
      simp only [hs, Option.bind] at h
      have : exec env arg s ev = t := by simp [exec, hs]
      rw [this]
      exact ih t s' h

theorem runFrom_resolves (env : Env) (arg : String) (s : State)
    (hI : s.main = .parked → s.fired = false) :
    ∃ o, (runFrom env arg s [.deadline, .select .ctxDone]).main = .returned o := by
  obtain ⟨m, g1, g2, f, lg, out, iv, cl⟩ := s
  simp only at hI
  cases m with
  | atSelect => cases f <;> exact ⟨.timeout, by simp [runFrom, exec, step?]⟩
  | parked =>
    have hf : f = false := hI rfl
    subst hf
    exact ⟨.timeout, by simp [runFrom, exec, step?]⟩
  | returned o => exact ⟨o, by cases f <;> simp [runFrom, exec, step?]⟩

theorem quiescent_returned (env : Env) (arg : String) (s : State)
    (hI : s.main = .parked → s.fired = false) (hq : s.quiescent env arg) :
    ∃ o, s.main = .returned o := by
  obtain ⟨m, g1, g2, f, lg, out, iv, cl⟩ := s
  simp only at hI
  cases m with
  | atSelect =>
    cases f
    · have := hq .deadline
      simp [step?] at this
    · have := hq (.select .ctxDone)
      simp [step?] at this
  | parked =>
    have hf : f = false := hI rfl
    subst hf
    have := hq .deadline
    simp [step?] at this
  | returned o => exact ⟨o, rfl⟩

/-! ## The argument checks -/

theorem main_no_panic (env : Env) (args : List String) (sched : List Event)
    (h : args ≠ []) :
    (∃ msg, main env args sched = Run.rejected msg) ∨
    (∃ prog arg, args = [prog, arg] ∧ '-' ∈ arg.data ∧
      main env args sched = Run.ofState (race env arg sched)) := by
  match args, h with
  | [prog], _ => exact Or.inl ⟨"You must provide at least one CEP", by simp [main]⟩
  | [prog, arg], _ =>
    by_cases hh : '-' ∈ arg.data
    · exact Or.inr ⟨prog, arg, rfl, hh, main_accepts env prog arg sched hh⟩
    · left
      apply main_rejects env prog [arg] sched
      rintro ⟨a, ha, hc⟩
      cases ha
      exact hh hc
  | a :: b :: c :: rest, _ => exact Or.inl ⟨"You must pass only a single CEP", by simp [main]⟩

theorem main_invoked (env : Env) (prog a : String) (sched : List Event) (h : '-' ∈ a.data) :
    ∀ i ∈ (main env [prog, a] sched).invoked,
      i = .requestViaCEP (removeHyphens a) ∨ i = .requestApiCEP a := by
  rw [main_accepts env prog a sched h]
  have hinv := race_invoked env a sched
  rw [stringsReplace_hyphen] at hinv
  exact hinv.1

/-! ## Properties of the program -/

/-- C1, as stated, fails at the empty argument vector: it has no positional argument, and
`main` passes both length checks and reads `args[1]`, which is out of range: it panics, having
logged nothing, instead of logging a message and returning. -/
theorem empty_argument_vector_counterexample :
    (([] : List String).tail.length = 0) ∧
    (main sampleEnv [] (timeline 0 0)).exit = .panicked ∧
    (main sampleEnv [] (timeline 0 0)).exit ≠ .returned ∧
    (main sampleEnv [] (timeline 0 0)).log = [] := by
  decide

/-- C1, amended: for an argument vector that holds at least the program name, `main` starts the
two goroutines exactly when there is one positional argument and it contains a `-`; otherwise,
under every schedule, it logs one message and returns with no adapter called, no HTTP call
made and nothing printed. When it starts them, the schedule in which both adapters run calls
both and makes HTTP calls. -/
theorem main_launches_iff_one_hyphenated_argument (env : Env) (args : List String)
    (sched : List Event) (h : args ≠ []) :
    ((main env args sched).launched = true ↔ ∃ a, args.tail = [a] ∧ '-' ∈ a.data) ∧
    ((¬ ∃ a, args.tail = [a] ∧ '-' ∈ a.data) →
      (main env args sched).exit = .returned ∧
      (main env args sched).log.length = 1 ∧
      (main env args sched).invoked = [] ∧
      (main env args sched).calls = [] ∧
      (main env args sched).stdout = [] ∧
      (main env args sched).outcome = none) ∧
    ((∃ a, args.tail = [a] ∧ '-' ∈ a.data) →
      (main env args [.viaCepReturns, .apiCepReturns]).invoked.length = 2 ∧
      (main env args [.viaCepReturns, .apiCepReturns]).calls ≠ []) := by
  obtain ⟨prog, pos, rfl⟩ := List.exists_cons_of_ne_nil h
  simp only [List.tail_cons]
  refine ⟨⟨fun hl => ?_, fun ⟨a, ha, hh⟩ => ?_⟩, fun hn => ?_, fun ⟨a, ha, hh⟩ => ?_⟩
  · by_contra hn
    obtain ⟨msg, hm⟩ := main_rejects env prog pos sched hn
    rw [hm] at hl
    simp [Run.rejected] at hl
  · subst ha
    rw [main_accepts env prog a sched hh]
    rfl
  · obtain ⟨msg, hm⟩ := main_rejects env prog pos sched hn
    rw [hm]
    simp [Run.rejected]
  · subst ha
    rw [main_accepts env prog a _ hh]
    have h1 := requestViaCEP_calls env (stringsReplace a "-" "" (-1))
    constructor
    · simp only [Run.ofState, race, runFrom, List.foldl, exec, step?, State.init]
      cases (requestViaCEP env (stringsReplace a "-" "" (-1))).err <;>
        cases (requestApiCEP env a).err <;> simp
    · simp only [Run.ofState, race, runFrom, List.foldl, exec, step?, State.init]
      cases (requestViaCEP env (stringsReplace a "-" "" (-1))).err <;>
        cases (requestApiCEP env a).err <;> simp [h1]

/-- Witness of the amended C1: the single argument `abc` has no `-`; `main` returns after one
log line, with no adapter called and no HTTP call made. -/
theorem main_launches_iff_one_hyphenated_argument_witness :
    (["cep", "abc"] : List String) ≠ [] ∧
    (¬ ∃ a, (["cep", "abc"] : List String).tail = [a] ∧ '-' ∈ a.data) ∧
    (main sampleEnv ["cep", "abc"] (timeline 0 0)).exit = .returned ∧
    (main sampleEnv ["cep", "abc"] (timeline 0 0)).log.length = 1 ∧
    (main sampleEnv ["cep", "abc"] (timeline 0 0)).invoked = [] ∧
    (main sampleEnv ["cep", "abc"] (timeline 0 0)).calls = [] ∧
    (main sampleEnv ["cep", "abc"] (timeline 0 0)).stdout = [] ∧
    (main sampleEnv ["cep", "abc"] (timeline 0 0)).outcome = none :=
  have hn : ¬ ∃ a, (["cep", "abc"] : List String).tail = [a] ∧ '-' ∈ a.data := by
    rintro ⟨a, ha, hc⟩
    cases ha
    revert hc
    decide
  ⟨by decide, hn,
   (main_launches_iff_one_hyphenated_argument sampleEnv ["cep", "abc"] (timeline 0 0)
     (by decide)).2.1 hn⟩

/-- C5: for an accepted argument `a`, the ViaCEP adapter is only ever called with `a` with every
`-` removed and the ApiCEP adapter with `a` itself; the only HTTP calls made are the GET of
`https://viacep.com.br/ws/<a without hyphens>/json` and the GET request for
`https://cdn.apicep.com/file/apicep/<a>.json`; and when both goroutines run, exactly these
two adapter calls are made. -/
theorem adapters_called_with_normalised_keys (env : Env) (prog a : String)
    (sched : List Event) (h : '-' ∈ a.data) :
    (∀ i ∈ (main env [prog, a] sched).invoked,
      i = .requestViaCEP (removeHyphens a) ∨ i = .requestApiCEP a) ∧
    (∀ c ∈ (main env [prog, a] sched).calls,
      c = .get ("https://viacep.com.br/ws/" ++ removeHyphens a ++ "/json") ∨
      c = .newRequest "GET" ("https://cdn.apicep.com/file/apicep/" ++ a ++ ".json") ∨
      c = .clientDo ⟨"GET", "https://cdn.apicep.com/file/apicep/" ++ a ++ ".json"⟩) ∧
    (main env [prog, a] [.viaCepReturns, .apiCepReturns]).invoked =
      [.requestViaCEP (removeHyphens a), .requestApiCEP a] ∧
    (requestViaCEP env (removeHyphens a)).calls =
      [.get ("https://viacep.com.br/ws/" ++ removeHyphens a ++ "/json")] ∧
    (requestApiCEP env a).calls.head? =
      some (.newRequest "GET" ("https://cdn.apicep.com/file/apicep/" ++ a ++ ".json")) := by
  rw [main_accepts env prog a sched h, main_accepts env prog a _ h]
  have hinv := race_invoked env a sched
  rw [stringsReplace_hyphen] at hinv
  refine ⟨hinv.1, fun c hc => ?_, ?_, requestViaCEP_calls env _, ?_⟩
  · rcases hinv.2 c hc with h1 | h1
    · rw [requestViaCEP_calls] at h1
      left; simpa using h1
    · rw [requestApiCEP_calls] at h1
      right
      cases hn : env.newRequestErr "GET" ("https://cdn.apicep.com/file/apicep/" ++ a ++ ".json")
        <;> simp [hn] at h1
      · exact h1
      · left; exact h1
  · simp only [Run.ofState, race, runFrom, List.foldl, exec, step?, State.init,
      stringsReplace_hyphen]
    cases (requestViaCEP env (removeHyphens a)).err <;>
      cases (requestApiCEP env a).err <;> simp
  · rw [requestApiCEP_calls]; rfl

/-- Witness of C5 at `01310-100`. -/
theorem adapters_called_with_normalised_keys_witness :
    '-' ∈ ("01310-100" : String).data ∧
    (main sampleEnv ["cep", "01310-100"] [.viaCepReturns, .apiCepReturns]).invoked =
      [.requestViaCEP "01310100", .requestApiCEP "01310-100"] :=
  ⟨by decide,
   (adapters_called_with_normalised_keys sampleEnv "cep" "01310-100" [] (by decide)).2.2.1⟩

/-- C7, as stated, fails: `a-b` is accepted and the key handed to `requestViaCEP` is `ab`,
which is neither made of digits nor 8 characters long; `01310-100` gives a key of another
length. -/
theorem lookup_key_not_digits_counterexample :
    (main sampleEnv ["cep", "a-b"] [.viaCepReturns]).launched = true ∧
    (main sampleEnv ["cep", "a-b"] [.viaCepReturns]).invoked = [.requestViaCEP "ab"] ∧
    ¬ allDigits "ab" ∧ ("ab" : String).length ≠ 8 ∧
    (main sampleEnv ["cep", "01310-100"] [.viaCepReturns]).invoked =
      [.requestViaCEP "01310100"] ∧
    ("01310100" : String).length ≠ ("ab" : String).length := by
  refine ⟨by decide, by decide, ?_, by decide, by decide, by decide⟩
  intro h
  exact absurd (h 'a' (by decide)) (by decide)

/-- C7, amended: for an accepted argument `a`, every key handed to `requestViaCEP` is `a` with
every `-` removed: it contains no `-`, its character count plus the number of `-` in `a` is the
character count of `a`, and it is shorter than `a`. -/
theorem lookup_key_is_argument_without_hyphens (env : Env) (prog a k : String)
    (sched : List Event) (h : '-' ∈ a.data)
    (hk : Invocation.requestViaCEP k ∈ (main env [prog, a] sched).invoked) :
    k = removeHyphens a ∧ '-' ∉ k.data ∧
    k.length + a.data.count '-' = a.length ∧ k.length < a.length := by
  have h1 := main_invoked env prog a sched h _ hk
  have hk' : k = removeHyphens a := by simpa using h1
  subst hk'
  have hlen : (removeHyphens a).length + a.data.count '-' = a.length := by
    simp only [removeHyphens, String.length]
    have := List.length_eq_length_filter_add (l := a.data) (fun c => decide (c ≠ '-'))
    rw [this]
    congr 1
    rw [List.count, List.countP_eq_length_filter]
    congr 1
    apply List.filter_congr
    intro c _
    by_cases hc : c = '-' <;> simp [hc]
  refine ⟨rfl, ?_, hlen, ?_⟩
  · simp [removeHyphens, List.mem_filter]
  · have : 0 < a.data.count '-' := List.count_pos_iff.2 h
    omega

/-- Witness of the amended C7 at `a-b`. -/
theorem lookup_key_is_argument_without_hyphens_witness :
    '-' ∈ ("a-b" : String).data ∧
    Invocation.requestViaCEP "ab" ∈ (main sampleEnv ["cep", "a-b"] [.viaCepReturns]).invoked ∧
    ("ab" : String) = removeHyphens "a-b" ∧ '-' ∉ ("ab" : String).data ∧
    ("ab" : String).length + ("a-b" : String).data.count '-' = ("a-b" : String).length ∧
    ("ab" : String).length < ("a-b" : String).length :=
  ⟨by decide, by decide,
   lookup_key_is_argument_without_hyphens sampleEnv "cep" "a-b" "ab" [.viaCepReturns]
     (by decide) (by decide)⟩

/-- C8: each adapter returns a nil error exactly when the HTTP call succeeded (for ApiCEP: the
request was built and `client.Do` succeeded), the body was read, the status code is 200 and
the body decodes; then the payload returned is the decoded value; in every other case the
error is non-nil and the payload is the zero value. -/
theorem adapter_succeeds_iff_200_and_decodes (env : Env) (cep : String) :
    (((requestViaCEP env cep).err = none ↔
        ∃ resp body v,
          env.httpGet ("https://viacep.com.br/ws/" ++ cep ++ "/json") = .ok resp ∧
          resp.Body = .ok body ∧ resp.StatusCode = 200 ∧ env.unmarshalViaCep body = .ok v) ∧
      (∀ resp body v,
          env.httpGet ("https://viacep.com.br/ws/" ++ cep ++ "/json") = .ok resp →
          resp.Body = .ok body → resp.StatusCode = 200 → env.unmarshalViaCep body = .ok v →
          (requestViaCEP env cep).data = v) ∧
      ((requestViaCEP env cep).err ≠ none → (requestViaCEP env cep).data = ViaCep.zero)) ∧
    (((requestApiCEP env cep).err = none ↔
        env.newRequestErr "GET" ("https://cdn.apicep.com/file/apicep/" ++ cep ++ ".json") = none ∧
        ∃ resp body v,
          env.clientDo ⟨"GET", "https://cdn.apicep.com/file/apicep/" ++ cep ++ ".json"⟩ =
            .ok resp ∧
          resp.Body = .ok body ∧ resp.StatusCode = 200 ∧ env.unmarshalApiCep body = .ok v) ∧
      (∀ resp body v,
          env.newRequestErr "GET" ("https://cdn.apicep.com/file/apicep/" ++ cep ++ ".json") =
            none →
          env.clientDo ⟨"GET", "https://cdn.apicep.com/file/apicep/" ++ cep ++ ".json"⟩ =
            .ok resp →
          resp.Body = .ok body → resp.StatusCode = 200 → env.unmarshalApiCep body = .ok v →
          (requestApiCEP env cep).data = v) ∧
      ((requestApiCEP env cep).err ≠ none → (requestApiCEP env cep).data = ApiCep.zero)) := by
  refine ⟨⟨⟨requestViaCEP_err_none env cep, ?_⟩, ?_, requestViaCEP_zero env cep⟩,
    ⟨⟨requestApiCEP_err_none env cep, ?_⟩, ?_, requestApiCEP_zero env cep⟩⟩
  · rintro ⟨resp, body, v, hg, hb, hs, hu⟩
    rw [requestViaCEP_ok env cep resp body v hg hb hs hu]
  · intro resp body v hg hb hs hu
    rw [requestViaCEP_ok env cep resp body v hg hb hs hu]
  · rintro ⟨hn, resp, body, v, hd, hb, hs, hu⟩
    rw [requestApiCEP_ok env cep resp body v hn hd hb hs hu]
  · intro resp body v hn hd hb hs hu
    rw [requestApiCEP_ok env cep resp body v hn hd hb hs hu]

/-- Witness of C8: with both providers answering 200 and a body that decodes, both adapters
return a nil error and the decoded payloads. -/
theorem adapter_succeeds_iff_200_and_decodes_witness :
    (requestViaCEP sampleEnv "01310100").err = none ∧
    (requestViaCEP sampleEnv "01310100").data = paulistaViaCep ∧
    (requestApiCEP sampleEnv "01310-100").err = none ∧
    (requestApiCEP sampleEnv "01310-100").data = paulistaApiCep :=
  ⟨(adapter_succeeds_iff_200_and_decodes sampleEnv "01310100").1.1.2
      ⟨⟨200, .ok [123, 125]⟩, [123, 125], paulistaViaCep, rfl, rfl, rfl, rfl⟩,
   (adapter_succeeds_iff_200_and_decodes sampleEnv "01310100").1.2.1
      ⟨200, .ok [123, 125]⟩ [123, 125] paulistaViaCep rfl rfl rfl rfl,
   (adapter_succeeds_iff_200_and_decodes sampleEnv "01310-100").2.1.2
      ⟨rfl, ⟨200, .ok [123, 125]⟩, [123, 125], paulistaApiCep, rfl, rfl, rfl, rfl⟩,
   (adapter_succeeds_iff_200_and_decodes sampleEnv "01310-100").2.2.1
      ⟨200, .ok [123, 125]⟩ [123, 125] paulistaApiCep rfl rfl rfl rfl rfl⟩

/-- C2, as stated, fails. With `main` waiting in the `select`, `requestViaCEP` returns a success
before the deadline has fired; the deadline then fires before the goroutine reaches
`ch1 <- data`, and the race resolves to Timeout with nothing printed. Likewise when `main`
reaches the `select` only after the deadline: the timeout case can be taken although the
send is waiting. Every event of both schedules can happen. -/
theorem success_before_deadline_counterexample :
    (run? sampleEnv "01310-100" State.init
      [.park, .viaCepReturns, .deadline, .viaCepSends]).isSome = true ∧
    (race sampleEnv "01310-100" [.park, .viaCepReturns]).g1 = .atSend paulistaViaCep ∧
    (race sampleEnv "01310-100" [.park, .viaCepReturns]).fired = false ∧
    (main sampleEnv ["cep", "01310-100"]
      [.park, .viaCepReturns, .deadline, .viaCepSends]).outcome = some .timeout ∧
    (main sampleEnv ["cep", "01310-100"]
      [.park, .viaCepReturns, .deadline, .viaCepSends]).stdout = [] ∧
    (run? sampleEnv "01310-100" State.init
      [.viaCepReturns, .viaCepSends, .deadline, .select .ctxDone]).isSome = true ∧
    (race sampleEnv "01310-100" [.viaCepReturns, .viaCepSends]).g1 = .blocked paulistaViaCep ∧
    (race sampleEnv "01310-100" [.viaCepReturns, .viaCepSends]).fired = false ∧
    (main sampleEnv ["cep", "01310-100"]
      [.viaCepReturns, .viaCepSends, .deadline, .select .ctxDone]).outcome = some .timeout := by
  decide

/-- C2, amended: in every state of a race, a send executed while `main` waits in the `select`
(the deadline then has not fired) resolves the race to Success with the payload sent, which is
printed; a race resolved to a provider's branch has printed exactly that one payload, the one
its adapter returned with a nil error; a race resolved to Timeout has printed nothing and its
deadline has fired; an unresolved race has printed nothing; and a resolved outcome and what
was printed never change afterwards. -/
theorem send_to_waiting_select_is_success (env : Env) (arg : String) (sched : List Event) :
    (∀ data, (race env arg sched).main = .parked → (race env arg sched).g1 = .atSend data →
      (race env arg sched).fired = false ∧
      (race env arg (sched ++ [.viaCepSends])).outcome = some (.viaCep data) ∧
      (race env arg (sched ++ [.viaCepSends])).stdout = [.viaCep data]) ∧
    (∀ data, (race env arg sched).main = .parked → (race env arg sched).g2 = .atSend data →
      (race env arg sched).fired = false ∧
      (race env arg (sched ++ [.apiCepSends])).outcome = some (.apiCep data) ∧
      (race env arg (sched ++ [.apiCepSends])).stdout = [.apiCep data]) ∧
    (∀ d, (race env arg sched).outcome = some (.viaCep d) →
      (race env arg sched).stdout = [.viaCep d] ∧
      (requestViaCEP env (stringsReplace arg "-" "" (-1))).err = none ∧
      (requestViaCEP env (stringsReplace arg "-" "" (-1))).data = d) ∧
    (∀ d, (race env arg sched).outcome = some (.apiCep d) →
      (race env arg sched).stdout = [.apiCep d] ∧
      (requestApiCEP env arg).err = none ∧ (requestApiCEP env arg).data = d) ∧
    ((race env arg sched).outcome = some .timeout →
      (race env arg sched).stdout = [] ∧ (race env arg sched).fired = true) ∧
    ((race env arg sched).outcome = none → (race env arg sched).stdout = []) ∧
    (∀ o more, (race env arg sched).outcome = some o →
      (race env arg (sched ++ more)).outcome = some o ∧
      (race env arg (sched ++ more)).stdout = (race env arg sched).stdout) := by
  have hI := race_inv env arg sched
  have hJ1 := race_inv env arg (sched ++ [.viaCepSends])
  have hJ2 := race_inv env arg (sched ++ [.apiCepSends])
  refine ⟨fun data hm hg => ?_, fun data hm hg => ?_, fun d ho => ?_, fun d ho => ?_,
    fun ho => ?_, fun ho => ?_, fun o more ho => ?_⟩
  · have hmain : (race env arg (sched ++ [.viaCepSends])).main = .returned (.viaCep data) := by
      rw [race_append]
      simp [runFrom, exec, step?, hm, hg]
    refine ⟨hI.parked_fired hm, (State.outcome_eq _ _).2 hmain, ?_⟩
    have := hJ1.stdout_eq
    rw [hmain] at this
    exact this
  · have hmain : (race env arg (sched ++ [.apiCepSends])).main = .returned (.apiCep data) := by
      rw [race_append]
      simp [runFrom, exec, step?, hm, hg]
    refine ⟨hI.parked_fired hm, (State.outcome_eq _ _).2 hmain, ?_⟩
    have := hJ2.stdout_eq
    rw [hmain] at this
    exact this
  · have hm := (State.outcome_eq _ _).1 ho
    have := hI.stdout_eq
    rw [hm] at this
    exact ⟨this, (hI.main_via d hm).1, (hI.main_via d hm).2.1⟩
  · have hm := (State.outcome_eq _ _).1 ho
    have := hI.stdout_eq
    rw [hm] at this
    exact ⟨this, (hI.main_api d hm).1, (hI.main_api d hm).2.1⟩
  · have hm := (State.outcome_eq _ _).1 ho
    have := hI.stdout_eq
    rw [hm] at this
    exact ⟨this, hI.main_timeout hm⟩
  · have := hI.stdout_eq
    unfold State.outcome at ho
    cases hm : (race env arg sched).main with
    | atSelect => rw [hm] at this; exact this
    | parked => rw [hm] at this; exact this
    | returned o => rw [hm] at ho; cases ho
  · have hm := (State.outcome_eq _ _).1 ho
    rw [race_append]
    exact ⟨(State.outcome_eq _ _).2 (runFrom_returned env arg _ o more hm).1,
      (runFrom_returned env arg _ o more hm).2⟩

/-- Witness of the amended C2: `main` waits, ViaCEP returns a success, and its send resolves
the race to Success with the payload printed. -/
theorem send_to_waiting_select_is_success_witness :
    (race sampleEnv "01310-100" [.park, .viaCepReturns]).main = .parked ∧
    (race sampleEnv "01310-100" [.park, .viaCepReturns]).g1 = .atSend paulistaViaCep ∧
    (race sampleEnv "01310-100" [.park, .viaCepReturns]).fired = false ∧
    (race sampleEnv "01310-100" ([.park, .viaCepReturns] ++ [.viaCepSends])).outcome =
      some (.viaCep paulistaViaCep) ∧
    (race sampleEnv "01310-100" ([.park, .viaCepReturns] ++ [.viaCepSends])).stdout =
      [.viaCep paulistaViaCep] :=
  ⟨by decide, by decide,
   (send_to_waiting_select_is_success sampleEnv "01310-100" [.park, .viaCepReturns]).1
     paulistaViaCep (by decide) (by decide)⟩

/-- C3, as stated, fails. ViaCEP executes its send while ApiCEP is still requesting and the
deadline has not fired, but `main` has not reached the `select` yet; ApiCEP then succeeds and
sends too, and the `select`, with both channels ready, may take `ch2`: the outcome is
ApiCEP's payload. Every event of the schedule can happen. -/
theorem first_publisher_wins_counterexample :
    (run? sampleEnv "01310-100" State.init
      [.viaCepReturns, .viaCepSends, .apiCepReturns, .apiCepSends, .select .ch2]).isSome = true ∧
    (race sampleEnv "01310-100" [.viaCepReturns, .viaCepSends]).g1 = .blocked paulistaViaCep ∧
    (race sampleEnv "01310-100" [.viaCepReturns, .viaCepSends]).g2 = .requesting ∧
    (race sampleEnv "01310-100" [.viaCepReturns, .viaCepSends]).fired = false ∧
    (main sampleEnv ["cep", "01310-100"]
      [.viaCepReturns, .viaCepSends, .apiCepReturns, .apiCepSends, .select .ch2]).outcome =
        some (.apiCep paulistaApiCep) ∧
    (main sampleEnv ["cep", "01310-100"]
      [.viaCepReturns, .viaCepSends, .apiCepReturns, .apiCepSends, .select .ch2]).outcome ≠
        some (.viaCep paulistaViaCep) := by
  decide

/-- C3, amended: when an adapter executes its send while `main` is waiting in the `select`,
the outcome is that adapter's payload whatever happens afterwards; in particular, when `main`
waits from the start and each goroutine sends as soon as its adapter returns, a ViaCEP success
after `tA` milliseconds with `tA < tB` and `tA` before the deadline gives ViaCEP's payload, and
symmetrically for ApiCEP. -/
theorem send_to_waiting_select_wins (env : Env) (arg : String) (sched more : List Event) :
    (∀ data, (race env arg sched).main = .parked → (race env arg sched).g1 = .atSend data →
      (race env arg (sched ++ .viaCepSends :: more)).outcome = some (.viaCep data)) ∧
    (∀ data, (race env arg sched).main = .parked → (race env arg sched).g2 = .atSend data →
      (race env arg (sched ++ .apiCepSends :: more)).outcome = some (.apiCep data)) ∧
    (∀ tA tB, tA < tB → tA < deadlineMs →
      (requestViaCEP env (stringsReplace arg "-" "" (-1))).err = none →
      (race env arg (timeline tA tB ++ more)).outcome =
        some (.viaCep (requestViaCEP env (stringsReplace arg "-" "" (-1))).data)) ∧
    (∀ tA tB, tB < tA → tB < deadlineMs → (requestApiCEP env arg).err = none →
      (race env arg (timeline tA tB ++ more)).outcome =
        some (.apiCep (requestApiCEP env arg).data)) := by
  refine ⟨fun data hm hg => ?_, fun data hm hg => ?_, fun tA tB h1 h2 hok => ?_,
    fun tA tB h1 h2 hok => ?_⟩
  · rw [race_append, runFrom_cons]
    refine (State.outcome_eq _ _).2 (runFrom_returned env arg _ _ more ?_).1
    simp [exec, step?, hm, hg]
  · rw [race_append, runFrom_cons]
    refine (State.outcome_eq _ _).2 (runFrom_returned env arg _ _ more ?_).1
    simp [exec, step?, hm, hg]
  · obtain ⟨rest, hr⟩ := timeline_viaCep_first tA tB (Nat.le_of_lt h1) (Nat.le_of_lt h2)
    rw [hr]
    exact (State.outcome_eq _ _).2 (race_viaCep_first env arg (rest ++ more) hok)
  · obtain ⟨rest, hr⟩ := timeline_apiCep_first tA tB h1 (Nat.le_of_lt h2)
    rw [hr]
    exact (State.outcome_eq _ _).2 (race_apiCep_first env arg (rest ++ more) hok)

/-- Witness of the amended C3: key `01310-100`, ViaCEP answering after 10 ms, ApiCEP after
500 ms, deadline after one second: the outcome is ViaCEP's payload. -/
theorem send_to_waiting_select_wins_witness :
    (10 < 500 ∧ 10 < deadlineMs) ∧
    (requestViaCEP sampleEnv (stringsReplace "01310-100" "-" "" (-1))).err = none ∧
    (race sampleEnv "01310-100" (timeline 10 500 ++ [])).outcome =
      some (.viaCep (requestViaCEP sampleEnv (stringsReplace "01310-100" "-" "" (-1))).data) ∧
    (requestViaCEP sampleEnv (stringsReplace "01310-100" "-" "" (-1))).data = paulistaViaCep :=
  ⟨by decide, by decide,
   (send_to_waiting_select_wins sampleEnv "01310-100" [] []).2.2.1 10 500 (by decide)
     (by decide) (by decide),
   by decide⟩

/-- C4: when both adapters return an error, in every state of the race neither goroutine is at
or in its send, no send and no channel case of the `select` can happen, nothing is printed,
and the only outcome the race can have is Timeout, with the deadline fired; once the deadline
has fired and `main` has executed the `select` the outcome is Timeout, and so it is in every
state where nothing more can happen; the provider errors only appear in the log. -/
theorem both_adapters_fail_gives_timeout (env : Env) (prog arg : String)
    (sched : List Event) (e1 e2 : GoError) (h : '-' ∈ arg.data)
    (h1 : (requestViaCEP env (stringsReplace arg "-" "" (-1))).err = some e1)
    (h2 : (requestApiCEP env arg).err = some e2) :
    ((race env arg sched).g1 = .requesting ∨ (race env arg sched).g1 = .exited) ∧
    ((race env arg sched).g2 = .requesting ∨ (race env arg sched).g2 = .exited) ∧
    step? env arg (race env arg sched) .viaCepSends = none ∧
    step? env arg (race env arg sched) .apiCepSends = none ∧
    step? env arg (race env arg sched) (.select .ch1) = none ∧
    step? env arg (race env arg sched) (.select .ch2) = none ∧
    (main env [prog, arg] sched).stdout = [] ∧
    (∀ o, (main env [prog, arg] sched).outcome = some o →
      o = .timeout ∧ (race env arg sched).fired = true) ∧
    (main env [prog, arg] (sched ++ [.deadline, .select .ctxDone])).outcome = some .timeout ∧
    ((race env arg sched).quiescent env arg →
      (main env [prog, arg] sched).outcome = some .timeout) := by
  have hI := race_inv env arg sched
  have hg1 : (race env arg sched).g1 = .requesting ∨ (race env arg sched).g1 = .exited := by
    cases hg : (race env arg sched).g1 with
    | requesting => exact Or.inl rfl
    | exited => exact Or.inr rfl
    | atSend d => have := (hI.g1_data d (Or.inl hg)).1; rw [h1] at this; cases this
    | blocked d => have := (hI.g1_data d (Or.inr hg)).1; rw [h1] at this; cases this
  have hg2 : (race env arg sched).g2 = .requesting ∨ (race env arg sched).g2 = .exited := by
    cases hg : (race env arg sched).g2 with
    | requesting => exact Or.inl rfl
    | exited => exact Or.inr rfl
    | atSend d => have := (hI.g2_data d (Or.inl hg)).1; rw [h2] at this; cases this
    | blocked d => have := (hI.g2_data d (Or.inr hg)).1; rw [h2] at this; cases this
  have hout : ∀ (sch : List Event) (o : Outcome),
      (race env arg sch).main = .returned o → o = .timeout := by
    intro sch o hm
    have hK := race_inv env arg sch
    cases o with
    | viaCep d => have := (hK.main_via d hm).1; rw [h1] at this; cases this
    | apiCep d => have := (hK.main_api d hm).1; rw [h2] at this; cases this
    | timeout => rfl
  rw [main_accepts env prog arg sched h, main_accepts env prog arg _ h]
  refine ⟨hg1, hg2, ?_, ?_, ?_, ?_, ?_, fun o ho => ?_, ?_, fun hq => ?_⟩
  · rcases hg1 with hg | hg <;> simp [step?, hg]
  · rcases hg2 with hg | hg <;> simp [step?, hg]
  · rcases hg1 with hg | hg <;> cases hm : (race env arg sched).main <;> simp [step?, hg, hm]
  · rcases hg2 with hg | hg <;> cases hm : (race env arg sched).main <;> simp [step?, hg, hm]
  · have := hI.stdout_eq
    cases hm : (race env arg sched).main with
    | atSelect => rw [hm] at this; exact this
    | parked => rw [hm] at this; exact this
    | returned o =>
      have ho := hout sched o hm
      subst ho
      rw [hm] at this
      exact this
  · have hm := (State.outcome_eq _ _).1 ho
    have ht := hout sched o hm
    subst ht
    exact ⟨rfl, hI.main_timeout hm⟩
  · obtain ⟨o, ho⟩ := runFrom_resolves env arg (race env arg sched) hI.parked_fired
    rw [← race_append] at ho
    have ht := hout _ o ho
    subst ht
    exact (State.outcome_eq _ _).2 ho
  · obtain ⟨o, ho⟩ := quiescent_returned env arg (race env arg sched) hI.parked_fired hq
    have ht := hout sched o ho
    subst ht
    exact (State.outcome_eq _ _).2 ho

/-- Witness of C4: both HTTP calls fail for key `01310-100`; under the timed schedule with both
answers at once the outcome is Timeout and both errors are in the log before it. -/
theorem both_adapters_fail_gives_timeout_witness :
    '-' ∈ ("01310-100" : String).data ∧
    (requestViaCEP failEnv (stringsReplace "01310-100" "-" "" (-1))).err =
      some ⟨"dial tcp: connection refused"⟩ ∧
    (requestApiCEP failEnv "01310-100").err = some ⟨"dial tcp: connection refused"⟩ ∧
    (main failEnv ["cep", "01310-100"] (timeline 0 0 ++ [.deadline, .select .ctxDone])).outcome =
      some .timeout ∧
    (main failEnv ["cep", "01310-100"] (timeline 0 0)).log =
      ["dial tcp: connection refused", "dial tcp: connection refused", "Timeout"] :=
  ⟨by decide, by decide, by decide,
   (both_adapters_fail_gives_timeout failEnv "cep" "01310-100" (timeline 0 0)
     ⟨"dial tcp: connection refused"⟩ ⟨"dial tcp: connection refused"⟩
     (by decide) (by decide) (by decide)).2.2.2.2.2.2.2.2.1,
   by decide⟩

/-- C6, as stated, fails: with a 200 answer whose body decodes and carries the "not found"
indicator, `requestViaCEP` returns the payload with a nil error although its `erro` field is
not empty, and `requestApiCEP` returns the payload with a nil error although `ok` is false and
`status` is 404; and in the race for `00000-000` with `main` waiting in the `select`, the
goroutine that answers and sends first resolves the race to Success with its "not found"
payload, not to Timeout, whichever of the two it is. Every event of both schedules can
happen. -/
theorem not_found_is_provider_error_counterexample :
    (requestViaCEP notFoundEnv "00000000").err = none ∧
    (requestViaCEP notFoundEnv "00000000").data.Error = "true" ∧
    (requestApiCEP notFoundEnv "00000-000").err = none ∧
    (requestApiCEP notFoundEnv "00000-000").data.Ok = false ∧
    (requestApiCEP notFoundEnv "00000-000").data.Status = 404 ∧
    (run? notFoundEnv "00000-000" State.init
      [.park, .viaCepReturns, .viaCepSends]).isSome = true ∧
    (main notFoundEnv ["cep", "00000-000"] [.park, .viaCepReturns, .viaCepSends]).outcome =
      some (.viaCep { ViaCep.zero with Error := "true" }) ∧
    (main notFoundEnv ["cep", "00000-000"] [.park, .viaCepReturns, .viaCepSends]).outcome ≠
      some .timeout ∧
    (run? notFoundEnv "00000-000" State.init
      [.park, .apiCepReturns, .apiCepSends]).isSome = true ∧
    (main notFoundEnv ["cep", "00000-000"] [.park, .apiCepReturns, .apiCepSends]).outcome =
      some (.apiCep { ApiCep.zero with Status := 404, Ok := false,
                                       StatusText := "CEP not found" }) ∧
    (main notFoundEnv ["cep", "00000-000"] [.park, .apiCepReturns, .apiCepSends]).outcome ≠
      some .timeout := by
  decide

/-- C6, amended: for each adapter on its own, an answer with status 200 whose body decodes into
a payload carrying the provider's "not found" indicator is returned as that payload with a nil
error; and in every race, for each provider that answers so, when `main` waits in the
`select` and that provider's goroutine executes its send (right after its adapter returns, or
having returned earlier), the race resolves to Success with the "not found" payload,
whatever happens afterwards. -/
theorem not_found_answer_is_returned_as_success (env : Env) (cep arg : String)
    (sched more : List Event) :
    (∀ resp body v,
      env.httpGet ("https://viacep.com.br/ws/" ++ cep ++ "/json") = .ok resp →
      resp.Body = .ok body → resp.StatusCode = 200 → env.unmarshalViaCep body = .ok v →
      v.Error ≠ "" →
      (requestViaCEP env cep).err = none ∧ (requestViaCEP env cep).data = v ∧
      (requestViaCEP env cep).data.Error ≠ "") ∧
    (∀ resp body v,
      env.newRequestErr "GET" ("https://cdn.apicep.com/file/apicep/" ++ cep ++ ".json") = none →
      env.clientDo ⟨"GET", "https://cdn.apicep.com/file/apicep/" ++ cep ++ ".json"⟩ = .ok resp →
      resp.Body = .ok body → resp.StatusCode = 200 → env.unmarshalApiCep body = .ok v →
      (v.Ok = false ∨ v.Status ≠ 200) →
      (requestApiCEP env cep).err = none ∧ (requestApiCEP env cep).data = v ∧
      ((requestApiCEP env cep).data.Ok = false ∨ (requestApiCEP env cep).data.Status ≠ 200)) ∧
    (∀ resp body v,
      env.httpGet ("https://viacep.com.br/ws/" ++ stringsReplace arg "-" "" (-1) ++ "/json") =
        .ok resp →
      resp.Body = .ok body → resp.StatusCode = 200 → env.unmarshalViaCep body = .ok v →
      v.Error ≠ "" → (race env arg sched).main = .parked →
      ((race env arg sched).g1 = .requesting →
        (race env arg (sched ++ .viaCepReturns :: .viaCepSends :: more)).outcome =
          some (.viaCep v)) ∧
      (∀ d, (race env arg sched).g1 = .atSend d →
        d = v ∧ (race env arg (sched ++ .viaCepSends :: more)).outcome = some (.viaCep v))) ∧
    (∀ resp body v,
      env.newRequestErr "GET" ("https://cdn.apicep.com/file/apicep/" ++ arg ++ ".json") = none →
      env.clientDo ⟨"GET", "https://cdn.apicep.com/file/apicep/" ++ arg ++ ".json"⟩ = .ok resp →
      resp.Body = .ok body → resp.StatusCode = 200 → env.unmarshalApiCep body = .ok v →
      (v.Ok = false ∨ v.Status ≠ 200) → (race env arg sched).main = .parked →
      ((race env arg sched).g2 = .requesting →
        (race env arg (sched ++ .apiCepReturns :: .apiCepSends :: more)).outcome =
          some (.apiCep v)) ∧
      (∀ d, (race env arg sched).g2 = .atSend d →
        d = v ∧ (race env arg (sched ++ .apiCepSends :: more)).outcome = some (.apiCep v))) := by
  refine ⟨fun resp body v hg hb hs hu hnf => ?_, fun resp body v hn hd hb hs hu hnf => ?_,
    fun resp body v hg hb hs hu _ hm => ?_, fun resp body v hn hd hb hs hu _ hm => ?_⟩
  · have hA := requestViaCEP_ok env cep resp body v hg hb hs hu
    rw [hA]
    exact ⟨rfl, rfl, hnf⟩
  · have hB := requestApiCEP_ok env cep resp body v hn hd hb hs hu
    rw [hB]
    exact ⟨rfl, rfl, hnf⟩
  · have hA := requestViaCEP_ok env _ resp body v hg hb hs hu
    have hAe : (requestViaCEP env (stringsReplace arg "-" "" (-1))).err = none := by rw [hA]
    have hAd : (requestViaCEP env (stringsReplace arg "-" "" (-1))).data = v := by rw [hA]
    refine ⟨fun hreq => ?_, fun d hd => ?_⟩
    · rw [race_append, runFrom_cons, runFrom_cons]
      refine (State.outcome_eq _ _).2 (runFrom_returned env arg _ _ more ?_).1
      simp [exec, step?, hm, hreq, hAe, hAd]
    · have hdv : d = v :=
        ((race_inv env arg sched).g1_data d (Or.inl hd)).2.symm.trans hAd
      subst hdv
      refine ⟨rfl, ?_⟩
      rw [race_append, runFrom_cons]
      refine (State.outcome_eq _ _).2 (runFrom_returned env arg _ _ more ?_).1
      simp [exec, step?, hm, hd]
  · have hB := requestApiCEP_ok env arg resp body v hn hd hb hs hu
    have hBe : (requestApiCEP env arg).err = none := by rw [hB]
    have hBd : (requestApiCEP env arg).data = v := by rw [hB]
    refine ⟨fun hreq => ?_, fun d hd => ?_⟩
    · rw [race_append, runFrom_cons, runFrom_cons]
      refine (State.outcome_eq _ _).2 (runFrom_returned env arg _ _ more ?_).1
      simp [exec, step?, hm, hreq, hBe, hBd]
    · have hdv : d = v :=
        ((race_inv env arg sched).g2_data d (Or.inl hd)).2.symm.trans hBd
      subst hdv
      refine ⟨rfl, ?_⟩
      rw [race_append, runFrom_cons]
      refine (State.outcome_eq _ _).2 (runFrom_returned env arg _ _ more ?_).1
      simp [exec, step?, hm, hd]

/-- Witness of the amended C6: key `00000-000`, both providers answering "not found" with
status 200, `main` waiting in the `select`: each adapter alone returns its payload with a nil
error, and the race resolves to Success with ViaCEP's payload when ViaCEP answers and sends
first, with ApiCEP's when ApiCEP does, also when the other goroutine and the deadline
follow. -/
theorem not_found_answer_is_returned_as_success_witness :
    ((requestViaCEP notFoundEnv "00000000").err = none ∧
      (requestViaCEP notFoundEnv "00000000").data = { ViaCep.zero with Error := "true" } ∧
      (requestViaCEP notFoundEnv "00000000").data.Error ≠ "") ∧
    ((requestApiCEP notFoundEnv "00000000").err = none ∧
      (requestApiCEP notFoundEnv "00000000").data =
        { ApiCep.zero with Status := 404, Ok := false, StatusText := "CEP not found" } ∧
      ((requestApiCEP notFoundEnv "00000000").data.Ok = false ∨
        (requestApiCEP notFoundEnv "00000000").data.Status ≠ 200)) ∧
    (race notFoundEnv "00000-000" [.park]).main = .parked ∧
    (race notFoundEnv "00000-000" [.park]).g1 = .requesting ∧
    (race notFoundEnv "00000-000" [.park]).g2 = .requesting ∧
    (race notFoundEnv "00000-000"
      ([.park] ++ .viaCepReturns :: .viaCepSends ::
        [.apiCepReturns, .apiCepSends, .deadline])).outcome =
      some (.viaCep { ViaCep.zero with Error := "true" }) ∧
    (race notFoundEnv "00000-000"
      ([.park] ++ .apiCepReturns :: .apiCepSends ::
        [.viaCepReturns, .viaCepSends, .deadline])).outcome =
      some (.apiCep { ApiCep.zero with Status := 404, Ok := false,
                                       StatusText := "CEP not found" }) :=
  ⟨(not_found_answer_is_returned_as_success notFoundEnv "00000000" "00000-000" [] []).1
      ⟨200, .ok [123, 125]⟩ [123, 125] { ViaCep.zero with Error := "true" }
      rfl rfl rfl rfl (by decide),
   (not_found_answer_is_returned_as_success notFoundEnv "00000000" "00000-000" [] []).2.1
      ⟨200, .ok [123, 125]⟩ [123, 125]
      { ApiCep.zero with Status := 404, Ok := false, StatusText := "CEP not found" }
      rfl rfl rfl rfl rfl (Or.inl rfl),
   by decide, by decide, by decide,
   ((not_found_answer_is_returned_as_success notFoundEnv "00000000" "00000-000" [.park]
      [.apiCepReturns, .apiCepSends, .deadline]).2.2.1
      ⟨200, .ok [123, 125]⟩ [123, 125] { ViaCep.zero with Error := "true" }
      rfl rfl rfl rfl (by decide) (by decide)).1 (by decide),
   ((not_found_answer_is_returned_as_success notFoundEnv "00000000" "00000-000" [.park]
      [.viaCepReturns, .viaCepSends, .deadline]).2.2.2
      ⟨200, .ok [123, 125]⟩ [123, 125]
      { ApiCep.zero with Status := 404, Ok := false, StatusText := "CEP not found" }
      rfl rfl rfl rfl rfl (Or.inl rfl) (by decide)).1 (by decide)⟩

/-- C9, as stated, fails: the channels have no buffer. `main` waits, ApiCEP succeeds and its
send resolves the race; ViaCEP then succeeds and executes `ch1 <- data`, which nobody will
receive: the goroutine is blocked at its send and, whatever happens afterwards, never exits.
Every event of the schedule can happen. -/
theorem losing_send_blocks_counterexample :
    (run? sampleEnv "01310-100" State.init
      [.park, .apiCepReturns, .apiCepSends, .viaCepReturns, .viaCepSends]).isSome = true ∧
    (race sampleEnv "01310-100"
      [.park, .apiCepReturns, .apiCepSends, .viaCepReturns, .viaCepSends]).main =
        .returned (.apiCep paulistaApiCep) ∧
    (race sampleEnv "01310-100"
      [.park, .apiCepReturns, .apiCepSends, .viaCepReturns, .viaCepSends]).g1 =
        .blocked paulistaViaCep ∧
    (∀ more, (race sampleEnv "01310-100"
      ([.park, .apiCepReturns, .apiCepSends, .viaCepReturns, .viaCepSends] ++ more)).g1 ≠
        .exited) := by
  refine ⟨by decide, by decide, by decide, fun more => ?_⟩
  rw [race_append]
  exact runFrom_g1_stuck sampleEnv "01310-100" _ more (by decide)
    ⟨.apiCep paulistaApiCep, by decide⟩ (by decide)

/-- C9, amended: `ch1` and `ch2` are unbuffered. A send executed while `main` is not waiting
in the `select` leaves the goroutine blocked with nothing printed, and once `main` has
returned, a goroutine whose adapter succeeds and that has not exited never exits, whatever
happens afterwards: its send is never received. -/
theorem send_after_resolution_never_completes (env : Env) (arg : String)
    (sched more : List Event) :
    (∀ data, (race env arg sched).g1 = .atSend data → (race env arg sched).main ≠ .parked →
      (race env arg (sched ++ [.viaCepSends])).g1 = .blocked data ∧
      (race env arg (sched ++ [.viaCepSends])).stdout = (race env arg sched).stdout) ∧
    (∀ data, (race env arg sched).g2 = .atSend data → (race env arg sched).main ≠ .parked →
      (race env arg (sched ++ [.apiCepSends])).g2 = .blocked data ∧
      (race env arg (sched ++ [.apiCepSends])).stdout = (race env arg sched).stdout) ∧
    ((requestViaCEP env (stringsReplace arg "-" "" (-1))).err = none →
      (race env arg sched).outcome ≠ none → (race env arg sched).g1 ≠ .exited →
      (race env arg (sched ++ more)).g1 ≠ .exited) ∧
    ((requestApiCEP env arg).err = none →
      (race env arg sched).outcome ≠ none → (race env arg sched).g2 ≠ .exited →
      (race env arg (sched ++ more)).g2 ≠ .exited) := by
  have hret : (race env arg sched).outcome ≠ none → ∃ o, (race env arg sched).main = .returned o := by
    intro ho
    cases hm : (race env arg sched).outcome with
    | none => exact absurd hm ho
    | some o => exact ⟨o, (State.outcome_eq _ _).1 hm⟩
  refine ⟨fun data hg hm => ?_, fun data hg hm => ?_, fun hok ho hg => ?_, fun hok ho hg => ?_⟩
  · rw [race_append]
    cases hmm : (race env arg sched).main with
    | parked => exact absurd hmm hm
    | atSelect => simp [runFrom, exec, step?, hg, hmm]
    | returned o => simp [runFrom, exec, step?, hg, hmm]
  · rw [race_append]
    cases hmm : (race env arg sched).main with
    | parked => exact absurd hmm hm
    | atSelect => simp [runFrom, exec, step?, hg, hmm]
    | returned o => simp [runFrom, exec, step?, hg, hmm]
  · rw [race_append]
    exact runFrom_g1_stuck env arg _ more hok (hret ho) hg
  · rw [race_append]
    exact runFrom_g2_stuck env arg _ more hok (hret ho) hg

/-- Witness of the amended C9: after ApiCEP has won, the ViaCEP goroutine, whose adapter
succeeds, has not exited after its send and the deadline. -/
theorem send_after_resolution_never_completes_witness :
    (requestViaCEP sampleEnv (stringsReplace "01310-100" "-" "" (-1))).err = none ∧
    (race sampleEnv "01310-100" [.park, .apiCepReturns, .apiCepSends]).outcome ≠ none ∧
    (race sampleEnv "01310-100" [.park, .apiCepReturns, .apiCepSends]).g1 ≠ .exited ∧
    (race sampleEnv "01310-100"
      ([.park, .apiCepReturns, .apiCepSends] ++ [.viaCepReturns, .viaCepSends, .deadline])).g1 ≠
        .exited :=
  ⟨by decide, by decide, by decide,
   (send_after_resolution_never_completes sampleEnv "01310-100"
     [.park, .apiCepReturns, .apiCepSends] [.viaCepReturns, .viaCepSends, .deadline]).2.2.1
     (by decide) (by decide) (by decide)⟩

/-- C10: for an argument vector that holds at least the program name, `main` never panics:
with fewer than two elements it returns at the argument-count check, and otherwise `args[1]`
exists; a run that has an outcome has returned; every run returns once the deadline has fired
and `main` has executed the `select`; a race in which nothing more can happen has returned; and
every event that happens uses up fuel, so no race runs forever. -/
theorem main_returns_normally (env : Env) (args : List String) (sched : List Event)
    (h : args ≠ []) :
    (main env args sched).exit ≠ .panicked ∧
    (args.length < 2 → main env args sched = Run.rejected "You must provide at least one CEP") ∧
    (2 ≤ args.length → ∃ a, args[1]? = some a) ∧
    ((main env args sched).outcome ≠ none → (main env args sched).exit = .returned) ∧
    (main env args (sched ++ [.deadline, .select .ctxDone])).exit = .returned ∧
    (∀ prog arg, args = [prog, arg] → '-' ∈ arg.data →
      (race env arg sched).quiescent env arg → (main env args sched).exit = .returned) ∧
    (∀ arg s s' ev, step? env arg s ev = some s' → s'.fuel < s.fuel) := by
  refine ⟨?_, fun hl => ?_, fun hl => ?_, fun ho => ?_, ?_, fun prog arg ha hh hq => ?_,
    fun arg s s' ev hs => step?_fuel env arg s s' ev hs⟩
  · rcases main_no_panic env args sched h with ⟨msg, hm⟩ | ⟨prog, arg, -, -, hm⟩
    · rw [hm]; simp [Run.rejected]
    · rw [hm]
      simp only [Run.ofState]
      cases (race env arg sched).main <;> simp
  · match args, h, hl with
    | [prog], _, _ => simp [main]
  · match args, hl with
    | a :: b :: rest, _ => exact ⟨b, by simp⟩
  · rcases main_no_panic env args sched h with ⟨msg, hm⟩ | ⟨prog, arg, -, -, hm⟩
    · rw [hm]; simp [Run.rejected]
    · rw [hm] at ho ⊢
      simp only [Run.ofState, State.outcome] at ho ⊢
      cases hmm : (race env arg sched).main <;> simp [hmm] at ho ⊢
  · rcases main_no_panic env args (sched ++ [.deadline, .select .ctxDone]) h with
      ⟨msg, hm⟩ | ⟨prog, arg, -, -, hm⟩
    · rw [hm]; simp [Run.rejected]
    · rw [hm]
      obtain ⟨o, ho⟩ := runFrom_resolves env arg (race env arg sched)
        (race_inv env arg sched).parked_fired
      rw [← race_append] at ho
      simp [Run.ofState, ho]
  · subst ha
    rw [main_accepts env prog arg sched hh]
    obtain ⟨o, ho⟩ := quiescent_returned env arg (race env arg sched)
      (race_inv env arg sched).parked_fired hq
    simp [Run.ofState, ho]

/-- Witness of C10 at `cep 01310-100` with ViaCEP winning. -/
theorem main_returns_normally_witness :
    (["cep", "01310-100"] : List String) ≠ [] ∧
    (main sampleEnv ["cep", "01310-100"] (timeline 10 500)).exit ≠ .panicked ∧
    (main sampleEnv ["cep", "01310-100"] (timeline 10 500)).exit = .returned :=
  ⟨by decide,
   (main_returns_normally sampleEnv ["cep", "01310-100"] (timeline 10 500) (by decide)).1,
   by decide⟩

end CepRace
